import Mathlib

/-!
Shallow embedding of the DirectX graphics driver core of this repository
(`internal/graphicsdriver/directx/graphics_windows.go` and
`internal/graphicsdriver/directx/pipeline_windows.go`).

Go methods that mutate their receiver are modelled as pure functions from the
receiver state to the result state.  External effects (device object creation,
command-list recording, fence signals) are modelled by an explicit event list
and by allocation counters in a device state.  Fallible native calls take
their outcome from an explicit environment record; Go `error` returns are
modelled as `Option Failure` results (`none` means a nil error), and Go
runtime panics are modelled as `Failure.panicked`.
-/

/-- Number of frame slots (`const frameCount = 2` in `graphics_windows.go`). -/
def frameCount : Nat := 2

/-- Per-frame descriptor budget constant
(`const numDescriptorsPerFrame = 256` in `pipeline_windows.go`). -/
def numDescriptorsPerFrame : Nat := 256

/-- Modelled from the spec: `graphics.ShaderImageNum` lives in the
`internal/graphics` package, which is not under `src/`.  The spec describes
one constant-buffer view plus the source-texture views per draw, and the heap
comment in `pipelineStates.initialize` (`5n+0: constants, 5n+m (1<=4):
textures`) fixes the number of texture slots at 4. -/
def ShaderImageNum : Nat := 4

/-- Views per draw (`const numConstantBufferAndSourceTextures = 1 +
graphics.ShaderImageNum` in `pipeline_windows.go`). -/
def numConstantBufferAndSourceTextures : Nat := 1 + ShaderImageNum

/-- Go error or runtime panic.  A Go function returning a nil error is
modelled by `none : Option Failure`. -/
inductive Failure where
  | err (msg : String)
  | panicked (msg : String)
deriving DecidableEq, Repr

/-- D3D12 blend factors (`_D3D12_BLEND` in the repository's
`api_windows.go`, mirroring the public D3D12 enumeration). -/
inductive D3D12_BLEND where
  | ZERO
  | ONE
  | SRC_COLOR
  | INV_SRC_COLOR
  | SRC_ALPHA
  | INV_SRC_ALPHA
  | DEST_ALPHA
  | INV_DEST_ALPHA
  | DEST_COLOR
  | INV_DEST_COLOR
deriving DecidableEq, Repr

/-- D3D12 blend operations (`_D3D12_BLEND_OP`). -/
inductive D3D12_BLEND_OP where
  | ADD
  | SUBTRACT
  | REV_SUBTRACT
  | MIN
  | MAX
deriving DecidableEq, Repr

/-- Modelled from the spec: `graphicsdriver.Operation` is declared in the
`internal/graphicsdriver` package, which is not under `src/`.  It is a Go
`int` enumeration; the spec and the `operationToBlend` switch in
`pipeline_windows.go` name exactly the operations Zero, One, SrcAlpha,
DstAlpha, OneMinusSrcAlpha, OneMinusDstAlpha and DstColor, modelled here as
the successive integer values 0..6 (Go `iota`). -/
def Operation : Type := Nat

def OpZero : Nat := 0

def OpOne : Nat := 1

def OpSrcAlpha : Nat := 2

def OpDstAlpha : Nat := 3

def OpOneMinusSrcAlpha : Nat := 4

def OpOneMinusDstAlpha : Nat := 5

def OpDstColor : Nat := 6

/-- The `operationToBlend` switch of `pipeline_windows.go`.  The `default`
branch panics in Go; this is modelled as `none`. -/
def operationToBlend (c : Nat) : Option D3D12_BLEND :=
  if c = OpZero then some .ZERO
  else if c = OpOne then some .ONE
  else if c = OpSrcAlpha then some .SRC_ALPHA
  else if c = OpDstAlpha then some .DEST_ALPHA
  else if c = OpOneMinusSrcAlpha then some .INV_SRC_ALPHA
  else if c = OpOneMinusDstAlpha then some .INV_DEST_ALPHA
  else if c = OpDstColor then some .DEST_COLOR
  else none

/-- Modelled from the spec: `graphicsdriver.CompositeMode` and its
`Operations` method live in the `internal/graphicsdriver` package, which is
not under `src/`.  Per the spec (data model and glossary) a composite mode is
"an abstract blend operation pair (source factor, destination factor)", so it
is modelled as that pair of operation values. -/
structure CompositeMode where
  srcOp : Nat
  dstOp : Nat
deriving DecidableEq, Repr

/-- Modelled from the spec: `CompositeMode.Operations` returns the source and
destination blend operations of the composite mode. -/
def CompositeMode.Operations (c : CompositeMode) : Nat × Nat :=
  (c.srcOp, c.dstOp)

/-- Cache key (`pipelineStatesKey` in `pipeline_windows.go`). -/
structure pipelineStatesKey where
  compositeMode : CompositeMode
  screen : Bool
deriving DecidableEq, Repr

/-- Cache entry (`pipelineStatesValue`).  The four fields are COM object
pointers in Go, modelled as device object identifiers; the Go zero value
(all nil pointers) is modelled as `⟨0, 0, 0, 0⟩` (real identifiers start
at 1). -/
structure pipelineStatesValue where
  rootSignature : Nat
  vertexShader : Nat
  pixelShader : Nat
  state : Nat
deriving DecidableEq, Repr

/-- A Go slice: a logical length plus the backing array.  Truncating with
`s = s[:0]` resets `len` and keeps the backing array (capacity), and
re-slicing with `s = s[:len+1]` re-exposes the element previously stored at
the old length. -/
structure GoSlice (α : Type) where
  len : Nat
  arr : List α
deriving DecidableEq, Repr

/-- The visible elements `s[0:len]` of a Go slice. -/
def GoSlice.view {α : Type} (s : GoSlice α) : List α :=
  s.arr.take s.len

/-- Go `s = s[:0]`: logical truncation, capacity retained. -/
def GoSlice.trunc0 {α : Type} (s : GoSlice α) : GoSlice α :=
  ⟨0, s.arr⟩

/-- Go capacity of the modelled slice. -/
def GoSlice.cap {α : Type} (s : GoSlice α) : Nat :=
  s.arr.length

/-- The `if cap(s) > len(s) then s = s[:len+1] else s = append(s, nil)`
idiom used by `SetVertices` and `useGraphicsPipelineState` to grow a
buffer list by one element while reusing a previously allocated entry. -/
def GoSlice.extendReuse (s : GoSlice (Option Nat)) : GoSlice (Option Nat) :=
  if s.len < s.arr.length then ⟨s.len + 1, s.arr⟩
  else ⟨s.len + 1, s.arr ++ [none]⟩

/-- Go `s[i] = v` (only used at indices below the logical length). -/
def GoSlice.setElem {α : Type} (s : GoSlice α) (i : Nat) (v : α) : GoSlice α :=
  ⟨s.len, s.arr.set i v⟩

/-- Go `s[i]` read, defaulting (all call sites guarantee `i < len`). -/
def GoSlice.getElem0 (s : GoSlice (Option Nat)) (i : Nat) : Option Nat :=
  (s.arr.getD i none)

/-- The empty Go slice (`nil` slice). -/
def GoSlice.nilSlice {α : Type} : GoSlice α := ⟨0, []⟩

/-- Events recorded on the command list, the command queue or the device.
They model the externally visible effects of the driver core. -/
inductive Event where
  | transitionBarrier (resource before after : Nat)
  | allocObj (id : Nat)
  | releaseObj (id : Nat)
  | createHeap (id numDescriptors : Nat)
  | writeCBV (heapIndex buffer : Nat)
  | writeSRV (heapIndex texture : Nat)
  | createSampler (heap : Nat)
  | setPipelineState (id : Nat)
  | setRootSignature (id : Nat)
  | setDescriptorHeaps (shader sampler : Nat)
  | setRootDescriptorTable (param heapIndex : Nat)
  | mapWrite (buffer : Nat)
  | closeList
  | execute
  | presentCall
  | signalFence (slot value : Nat)
  | waitFence (slot value : Nat)
  | resetAllocator (slot : Nat)
  | resetList (slot : Nat)
  | omSetRenderTargets (rtv : Nat)
  | setViewport (w h : Nat)
  | setScissor (x y w h : Nat)
  | drawIndexed (indexLen indexOffset : Nat)
  | setVertexBuffer (buffer : Nat)
  | setIndexBuffer (buffer : Nat)
deriving DecidableEq, Repr

/-- The blend-relevant fields of `_D3D12_RENDER_TARGET_BLEND_DESC` as filled
in by `pipelineStates.graphicsPipelineState`. -/
structure RenderTargetBlendDesc where
  BlendEnable : Bool
  SrcBlend : D3D12_BLEND
  DestBlend : D3D12_BLEND
  BlendOp : D3D12_BLEND_OP
  SrcBlendAlpha : D3D12_BLEND
  DestBlendAlpha : D3D12_BLEND
  BlendOpAlpha : D3D12_BLEND_OP
deriving DecidableEq, Repr

/-- Device-side allocation state: a fresh-identifier counter, the set of
currently live (created and not yet released) objects, the descriptor heaps
created (identifier and descriptor count) and the blend description baked
into each created pipeline state object. -/
structure DeviceState where
  nextObj : Nat
  live : List Nat
  heaps : List (Nat × Nat)
  psoBlend : List (Nat × RenderTargetBlendDesc)
deriving DecidableEq, Repr

/-- Creation of a device object: returns the fresh identifier. -/
def DeviceState.create (d : DeviceState) : Nat × DeviceState :=
  (d.nextObj, { d with nextObj := d.nextObj + 1, live := d.nextObj :: d.live })

/-- Release of a device object (`Release()` on a COM object). -/
def DeviceState.release (d : DeviceState) (id : Nat) : DeviceState :=
  { d with live := d.live.erase id }

/-- The `pipelineStates` struct of `pipeline_windows.go`.  The Go map
`cache` is modelled as an association list; `constantBuffers` is the
`[frameCount][]*iD3D12Resource1` array of per-slot constant-buffer lists. -/
structure pipelineStates where
  cache : List (pipelineStatesKey × pipelineStatesValue)
  shaderDescriptorHeap : Option Nat
  shaderDescriptorSize : Nat
  samplerDescriptorHeap : Option Nat
  lastFrameIndex : Nat
  constantBuffers : List (GoSlice (Option Nat))
deriving DecidableEq, Repr

/-- Lookup in the modelled pipeline-state cache (Go map indexing). -/
def findCache (c : List (pipelineStatesKey × pipelineStatesValue))
    (k : pipelineStatesKey) : Option pipelineStatesValue :=
  match c with
  | [] => none
  | (k1, v) :: rest => if k1 = k then some v else findCache rest k

/-- Outcomes of the fallible native calls made while building a pipeline
entry (`d3D12SerializeRootSignature`, `CreateRootSignature`, the two
`d3DCompile` calls and `CreateGraphicsPipelineState`).  A `some` entry means
that call fails with the given error message. -/
structure DeviceEnv where
  serializeErr : Option String
  createRootSigErr : Option String
  compileVSErr : Option String
  compilePSErr : Option String
  createPSOErr : Option String
deriving DecidableEq, Repr

/-- Environment in which every native build call succeeds. -/
def noDeviceErr : DeviceEnv := ⟨none, none, none, none, none⟩

/-- The Go zero value `pipelineStatesValue{}` returned on build failure. -/
def zeroPSV : pipelineStatesValue := ⟨0, 0, 0, 0⟩

/-- The `_D3D12_RENDER_TARGET_BLEND_DESC` literal of
`pipelineStates.graphicsPipelineState`: both color and alpha channels use the
blend factors mapped from the composite mode's operation pair, with additive
blend ops.  `none` models the `operationToBlend` panic on an invalid
operation. -/
def renderTargetBlendDescFor (key : pipelineStatesKey) : Option RenderTargetBlendDesc :=
  let ops := key.compositeMode.Operations
  match operationToBlend ops.1, operationToBlend ops.2 with
  | some sb, some db => some ⟨true, sb, db, .ADD, sb, db, .ADD⟩
  | _, _ => none

/-- The `pipelineStates.graphicsPipelineState` method of
`pipeline_windows.go`: cached lookup, else build the root signature, the two
shader blobs and the pipeline state object, caching the result.  The
serialized-signature blob `sig` is released on every exit (unconditional
`defer`); the root signature and shader blobs are additionally released when
a later step fails (`ferr`-conditional defers).  A Go panic (invalid blend
operation) runs only the unconditional defer. -/
def pipelineStates.graphicsPipelineState (p : pipelineStates) (dev : DeviceState)
    (env : DeviceEnv) (key : pipelineStatesKey) :
    Option Failure × pipelineStatesValue × pipelineStates × DeviceState × List Event :=
  match findCache p.cache key with
  | some s => (none, s, p, dev, [])
  | none =>
    match env.serializeErr with
    | some e => (some (.err e), zeroPSV, p, dev, [])
    | none =>
      let r1 := dev.create
      let sig := r1.1
      let dev1 := r1.2
      match env.createRootSigErr with
      | some e => (some (.err e), zeroPSV, p, dev1.release sig,
          [.allocObj sig, .releaseObj sig])
      | none =>
        let r2 := dev1.create
        let rootSignature := r2.1
        let dev2 := r2.2
        match env.compileVSErr with
        | some e => (some (.err e), zeroPSV, p,
            (dev2.release rootSignature).release sig,
            [.allocObj sig, .allocObj rootSignature,
             .releaseObj rootSignature, .releaseObj sig])
        | none =>
          let r3 := dev2.create
          let vsh := r3.1
          let dev3 := r3.2
          match env.compilePSErr with
          | some e => (some (.err e), zeroPSV, p,
              ((dev3.release vsh).release rootSignature).release sig,
              [.allocObj sig, .allocObj rootSignature, .allocObj vsh,
               .releaseObj vsh, .releaseObj rootSignature, .releaseObj sig])
          | none =>
            let r4 := dev3.create
            let psh := r4.1
            let dev4 := r4.2
            match renderTargetBlendDescFor key with
            | none =>
              (some (.panicked "directx: invalid operation"), zeroPSV, p,
                dev4.release sig,
                [.allocObj sig, .allocObj rootSignature, .allocObj vsh,
                 .allocObj psh, .releaseObj sig])
            | some desc =>
              match env.createPSOErr with
              | some e => (some (.err e), zeroPSV, p,
                  (((dev4.release psh).release vsh).release rootSignature).release sig,
                  [.allocObj sig, .allocObj rootSignature, .allocObj vsh,
                   .allocObj psh, .releaseObj psh, .releaseObj vsh,
                   .releaseObj rootSignature, .releaseObj sig])
              | none =>
                let r5 := dev4.create
                let s := r5.1
                let dev5 := { r5.2 with psoBlend := (s, desc) :: r5.2.psoBlend }
                let psv : pipelineStatesValue :=
                  ⟨rootSignature, vsh, psh, s⟩
                (none, psv, { p with cache := (key, psv) :: p.cache },
                 dev5.release sig,
                 [.allocObj sig, .allocObj rootSignature, .allocObj vsh,
                  .allocObj psh, .allocObj s, .releaseObj sig])

/-- Outcomes of the native calls made by `pipelineStates.initialize`. -/
structure InitializeEnv where
  createShaderHeapErr : Option String
  descriptorIncrementSize : Nat
  createSamplerHeapErr : Option String
deriving DecidableEq, Repr

/-- The `pipelineStates.initialize` method: creates the shader-visible
CBV/SRV/UAV descriptor heap with `frameCount * numDescriptorsPerFrame *
numConstantBufferAndSourceTextures` descriptors and the one-descriptor
sampler heap, releasing the former if the latter fails. -/
def pipelineStates.initialize (p : pipelineStates) (dev : DeviceState)
    (env : InitializeEnv) :
    Option Failure × pipelineStates × DeviceState × List Event :=
  match env.createShaderHeapErr with
  | some e => (some (.err e), p, dev, [])
  | none =>
    let n := frameCount * numDescriptorsPerFrame * numConstantBufferAndSourceTextures
    let r1 := dev.create
    let shaderH := r1.1
    let dev1 := { r1.2 with heaps := (shaderH, n) :: r1.2.heaps }
    let p1 := { p with shaderDescriptorHeap := some shaderH,
                       shaderDescriptorSize := env.descriptorIncrementSize }
    match env.createSamplerHeapErr with
    | some e =>
      (some (.err e), { p1 with shaderDescriptorHeap := none },
       dev1.release shaderH,
       [.allocObj shaderH, .createHeap shaderH n, .releaseObj shaderH])
    | none =>
      let r2 := dev1.create
      let samplerH := r2.1
      let dev2 := { r2.2 with heaps := (samplerH, 1) :: r2.2.heaps }
      let p2 := { p1 with samplerDescriptorHeap := some samplerH }
      (none, p2, dev2,
       [.allocObj shaderH, .createHeap shaderH n,
        .allocObj samplerH, .createHeap samplerH 1, .createSampler samplerH])

/-- Outcomes of the fallible calls made by
`pipelineStates.useGraphicsPipelineState` beyond the pipeline build. -/
structure UseEnv where
  build : DeviceEnv
  createBufferErr : Option String
  mapErr : Option String
  unmapErr : Option String
deriving DecidableEq, Repr

/-- Environment in which every call in `useGraphicsPipelineState`
succeeds. -/
def noUseErr : UseEnv := ⟨noDeviceErr, none, none, none⟩

/-- Descriptor-heap index of the first view of draw `idx` in frame slot
`frameIndex`, exactly as computed at the three `Offset` call sites of
`useGraphicsPipelineState`:
`frameIndex*numDescriptorsPerFrame + numConstantBufferAndSourceTextures*idx`. -/
def descriptorIndex (frameIndex idx : Nat) : Nat :=
  frameIndex * numDescriptorsPerFrame + numConstantBufferAndSourceTextures * idx

/-- Tail of `useGraphicsPipelineState` after the constant buffer for slot
`idx` has been obtained (source lines: `CreateShaderResourceView`, the
constant-buffer `Map`/`Unmap`, and the command-list binding calls). -/
def useTail (p : pipelineStates) (dev : DeviceState) (env : UseEnv)
    (frameIndex idx : Nat) (psv : pipelineStatesValue)
    (sourceTexture cb : Nat) (evs : List Event) :
    Option Failure × pipelineStates × DeviceState × List Event :=
  let evs1 := evs ++ [.writeSRV (descriptorIndex frameIndex idx + 1) sourceTexture]
  match env.mapErr with
  | some e => (some (.err e), p, dev, evs1)
  | none =>
    let evs2 := evs1 ++ [.mapWrite cb]
    match env.unmapErr with
    | some e => (some (.err e), p, dev, evs2)
    | none =>
      (none, p, dev, evs2 ++
        [.setPipelineState psv.state,
         .setRootSignature psv.rootSignature,
         .setDescriptorHeaps (p.shaderDescriptorHeap.getD 0) (p.samplerDescriptorHeap.getD 0),
         .setRootDescriptorTable 0 (descriptorIndex frameIndex idx),
         .setRootDescriptorTable 1 (descriptorIndex frameIndex idx + 1),
         .setRootDescriptorTable 2 0])

/-- The `pipelineStates.useGraphicsPipelineState` method: obtain (or build)
the pipeline entry, truncate the slot's constant-buffer list when the frame
index changed, enforce the `numDescriptorsPerFrame*2` budget, grow the list
by one (reusing a previously created buffer when present), create the buffer
and its constant-buffer view on first use, write the shader-resource view,
upload the viewport size, and record the binding calls. -/
def pipelineStates.useGraphicsPipelineState (p : pipelineStates) (dev : DeviceState)
    (env : UseEnv) (frameIndex : Nat) (key : pipelineStatesKey)
    (screenWidth screenHeight : Nat) (sourceTexture : Nat) :
    Option Failure × pipelineStates × DeviceState × List Event :=
  match p.graphicsPipelineState dev env.build key with
  | (some f, _, p1, dev1, ev1) => (some f, p1, dev1, ev1)
  | (none, psv, p1, dev1, ev1) =>
    let p2 :=
      if p1.lastFrameIndex ≠ frameIndex then
        let cbs0 := (p1.constantBuffers.getD frameIndex .nilSlice).trunc0
        { p1 with constantBuffers := p1.constantBuffers.set frameIndex cbs0 }
      else p1
    let p3 := { p2 with lastFrameIndex := frameIndex }
    let idx := (p3.constantBuffers.getD frameIndex .nilSlice).len
    if numDescriptorsPerFrame * 2 ≤ idx then
      (some (.err "directx: too many constant buffers"), p3, dev1, ev1)
    else
      let cbs1 := (p3.constantBuffers.getD frameIndex .nilSlice).extendReuse
      let p4 := { p3 with constantBuffers := p3.constantBuffers.set frameIndex cbs1 }
      match (p4.constantBuffers.getD frameIndex .nilSlice).getElem0 idx with
      | none =>
        match env.createBufferErr with
        | some e => (some (.err e), p4, dev1, ev1)
        | none =>
          let r := dev1.create
          let cb := r.1
          let dev2 := r.2
          let cbs2 := (p4.constantBuffers.getD frameIndex .nilSlice).setElem idx (some cb)
          let p5 := { p4 with constantBuffers := p4.constantBuffers.set frameIndex cbs2 }
          useTail p5 dev2 env frameIndex idx psv sourceTexture cb
            (ev1 ++ [.allocObj cb, .writeCBV (descriptorIndex frameIndex idx) cb])
      | some cb => useTail p4 dev1 env frameIndex idx psv sourceTexture cb ev1

/-- D3D12 resource states used by the driver (values from the public D3D12
enumeration mirrored in the repository's `api_windows.go`). -/
def _D3D12_RESOURCE_STATE_PRESENT : Nat := 0

def _D3D12_RESOURCE_STATE_RENDER_TARGET : Nat := 4

def _D3D12_RESOURCE_STATE_PIXEL_SHADER_RESOURCE : Nat := 128

def _D3D12_RESOURCE_STATE_COPY_DEST : Nat := 1024

def _D3D12_RESOURCE_STATE_COPY_SOURCE : Nat := 2048

/-- The `Image` struct of `graphics_windows.go` (the `graphics` back pointer
is passed explicitly where needed). -/
structure ImageState where
  width : Nat
  height : Nat
  screen : Bool
  state : Nat
  texture : Option Nat
  rtvDescriptorHeap : Option Nat
  stagingBuffer : Option Nat
  needsSync : Bool
deriving DecidableEq, Repr

/-- The `Graphics` struct of `graphics_windows.go`, restricted to the fields
the frame scheduler, transient buffer pool, image registry and pipeline cache
read or write.  `images` is the Go map from image ID to image, modelled as an
association list; `disposedImages` holds the queued image values per frame
slot. -/
structure GraphicsState where
  frameIndex : Nat
  fenceValues : List Nat
  renderTargets : List (Option Nat)
  vertices : List (GoSlice (Option Nat))
  indices : List (GoSlice (Option Nat))
  swapChain : Option Nat
  images : List (Nat × ImageState)
  screenImage : Option Nat
  disposedImages : List (List ImageState)
  ps : pipelineStates
  dev : DeviceState
deriving DecidableEq, Repr

/-- Go map lookup `g.images[id]` (nil when absent). -/
def findImage (l : List (Nat × ImageState)) (id : Nat) : Option ImageState :=
  match l with
  | [] => none
  | (k, v) :: rest => if k = id then some v else findImage rest id

/-- Replacement of the image stored under `id` (Go images are pointers, so a
method mutating an image mutates the map entry). -/
def setImage (l : List (Nat × ImageState)) (id : Nat) (i : ImageState) :
    List (Nat × ImageState) :=
  match l with
  | [] => []
  | (k, v) :: rest => if k = id then (k, i) :: rest else (k, v) :: setImage rest id i

/-- Go `delete(g.images, id)`. -/
def removeImageEntry (l : List (Nat × ImageState)) (id : Nat) :
    List (Nat × ImageState) :=
  match l with
  | [] => []
  | (k, v) :: rest => if k = id then rest else (k, v) :: removeImageEntry rest id

/-- The `Image.resource` method: the current swap-chain back buffer for the
screen image, the committed texture otherwise. -/
def Image.resource (g : GraphicsState) (i : ImageState) : Option Nat :=
  if i.screen then g.renderTargets.getD g.frameIndex none else i.texture

/-- The `Image.transiteState` method: no-op when the tracked state already
equals the required state, otherwise a single transition barrier naming the
resource, the tracked prior state and the required state, after which the
tracked state is updated. -/
def Image.transiteState (g : GraphicsState) (i : ImageState) (newState : Nat) :
    ImageState × List Event :=
  if i.state = newState then (i, [])
  else ({ i with state := newState },
    [.transitionBarrier ((Image.resource g i).getD 0) i.state newState])

/-- Release of an optional COM reference (no-op on nil). -/
def releaseOpt (dev : DeviceState) (o : Option Nat) : DeviceState × List Event :=
  match o with
  | none => (dev, [])
  | some id => (dev.release id, [.releaseObj id])

/-- The `Image.disposeImpl` method: releases the RTV heap, the staging
buffer and the texture of a queued image. -/
def Image.disposeImpl (dev : DeviceState) (i : ImageState) :
    ImageState × DeviceState × List Event :=
  let r1 := releaseOpt dev i.rtvDescriptorHeap
  let r2 := releaseOpt r1.1 i.stagingBuffer
  let r3 := releaseOpt r2.1 i.texture
  ({ i with rtvDescriptorHeap := none, stagingBuffer := none, texture := none },
   r3.1, r1.2 ++ r2.2 ++ r3.2)

/-- The disposal loop of `Graphics.End` over one slot's queued images. -/
def disposeAll (dev : DeviceState) (l : List ImageState) : DeviceState × List Event :=
  match l with
  | [] => (dev, [])
  | i :: rest =>
    let r := Image.disposeImpl dev i
    let r2 := disposeAll r.2.1 rest
    (r2.1, r.2.2 ++ r2.2)

/-- The `Graphics.removeImage` method (reached from `Image.Dispose`): the
image is deleted from the registry and queued on the current frame slot's
disposal list; its GPU resources are not released here. -/
def Graphics.removeImage (g : GraphicsState) (imgId : Nat) : GraphicsState :=
  match findImage g.images imgId with
  | none => g
  | some img =>
    let queue := (g.disposedImages.getD g.frameIndex []) ++ [img]
    let g1 := { g with images := removeImageEntry g.images imgId,
                       disposedImages := g.disposedImages.set g.frameIndex queue }
    if img.screen then { g1 with screenImage := none } else g1

/-- The `Image.Dispose` method ("dispose the image later as it might still
be used"). -/
def Image.Dispose (g : GraphicsState) (imgId : Nat) : GraphicsState :=
  Graphics.removeImage g imgId

/-- Outcomes of the native calls made by `Graphics.Begin`. -/
structure BeginEnv where
  backBufferIndex : Nat
  allocatorResetErr : Option String
  listResetErr : Option String
deriving DecidableEq, Repr

/-- The `Graphics.Begin` method: the frame index is 0, replaced by the swap
chain's reported current back-buffer index once a swap chain exists; the
slot's command allocator is reset, then the command list is reset onto it. -/
def Graphics.Begin (g : GraphicsState) (env : BeginEnv) :
    Option Failure × GraphicsState × List Event :=
  let fi := match g.swapChain with
    | none => 0
    | some _ => env.backBufferIndex
  let g1 := { g with frameIndex := fi }
  match env.allocatorResetErr with
  | some e => (some (.err e), g1, [])
  | none =>
    match env.listResetErr with
    | some e => (some (.err e), g1, [.resetAllocator fi])
    | none => (none, g1, [.resetAllocator fi, .resetList fi])

/-- Status of the bounded fence wait performed by `Graphics.End`. -/
inductive WaitStatus where
  | signaled
  | timedOut
  | failed
deriving DecidableEq, Repr

/-- Modelled external call: `windows.WaitForSingleObject` from
`golang.org/x/sys/windows` (third-party, not repository code).  Per that
package's wrapper, the returned error is non-nil only when the native call
returns WAIT_FAILED (0xFFFFFFFF); WAIT_OBJECT_0 (0) and WAIT_TIMEOUT (0x102)
are returned as the event value with a nil error. -/
def waitForSingleObject (w : WaitStatus) : Nat × Option String :=
  match w with
  | .signaled => (0, none)
  | .timedOut => (258, none)
  | .failed => (4294967295, some "directx: WaitForSingleObject failed")

/-- Outcomes of the native calls made by `Graphics.End`:
`completedValue` is what `fences[nextIndex].GetCompletedValue()` reports,
`waitStatus` the outcome of the bounded event wait. -/
structure EndEnv where
  closeErr : Option String
  presentErr : Option String
  signalErr : Option String
  completedValue : Nat
  setEventErr : Option String
  waitStatus : WaitStatus
deriving DecidableEq, Repr

/-- The fence comparison and bounded wait of `Graphics.End` for the other
slot: when the fence's completed value has not reached the expected value,
`SetEventOnCompletion` is installed and `WaitForSingleObject` is called with
the 10-second timeout; its Go error (non-nil only on WAIT_FAILED) is the only
outcome checked — the discarded event value means a WAIT_TIMEOUT result
proceeds like a success.  A nil first component means `End` proceeds to
reclaim. -/
def endFenceGate (env : EndEnv) (nextIndex expected : Nat) :
    Option Failure × List Event :=
  if env.completedValue < expected then
    match env.setEventErr with
    | some e => (some (.err e), [])
    | none =>
      let w := waitForSingleObject env.waitStatus
      match w.2 with
      | some e => (some (.err e), [.waitFence nextIndex expected])
      | none => (none, [.waitFence nextIndex expected])
  else (none, [])

/-- The reclamation step of `Graphics.End`: truncate the other slot's
transient vertex/index buffer lists (length zero, capacity retained) and run
its queued image disposals, emptying the queue. -/
def reclaimSlot (g : GraphicsState) (nextIndex : Nat) : GraphicsState × List Event :=
  let g3 := { g with
    vertices := g.vertices.set nextIndex ((g.vertices.getD nextIndex .nilSlice).trunc0),
    indices := g.indices.set nextIndex ((g.indices.getD nextIndex .nilSlice).trunc0) }
  let rd := disposeAll g3.dev (g3.disposedImages.getD nextIndex [])
  ({ g3 with dev := rd.1, disposedImages := g3.disposedImages.set nextIndex [] }, rd.2)

/-- The `Graphics.End` method.  When presenting: transition the screen image
to the present state, close and execute the command list, present, signal a
new fence value for the current slot, compare the other slot's fence against
its last signaled value and wait (bounded by the 10-second timeout) when it
has not been reached, then truncate the other slot's transient vertex/index
buffer lists and run its queued image disposals.  When not presenting: only
close and execute. -/
def Graphics.End (g : GraphicsState) (env : EndEnv) (present : Bool) :
    Option Failure × GraphicsState × List Event :=
  match g.swapChain with
  | none => (some (.err "directx: the swap chain is not initialized yet at End"), g, [])
  | some _ =>
    let step1 : Option Failure × GraphicsState × List Event :=
      if present then
        match g.screenImage with
        | none => (some (.panicked "runtime error: invalid memory address or nil pointer dereference"), g, [])
        | some sid =>
          match findImage g.images sid with
          | none => (some (.panicked "runtime error: invalid memory address or nil pointer dereference"), g, [])
          | some img =>
            let r := Image.transiteState g img _D3D12_RESOURCE_STATE_PRESENT
            (none, { g with images := setImage g.images sid r.1 }, r.2)
      else (none, g, [])
    match step1 with
    | (some f, g1, ev1) => (some f, g1, ev1)
    | (none, g1, ev1) =>
      match env.closeErr with
      | some e => (some (.err e), g1, ev1)
      | none =>
        let ev2 := ev1 ++ [.closeList, .execute]
        if present then
          match env.presentErr with
          | some e => (some (.err e), g1, ev2)
          | none =>
            let ev3 := ev2 ++ [.presentCall]
            let fi := g1.frameIndex
            let newVal := g1.fenceValues.getD fi 0 + 1
            let g2 := { g1 with fenceValues := g1.fenceValues.set fi newVal }
            let ev4 := ev3 ++ [.signalFence fi newVal]
            match env.signalErr with
            | some e => (some (.err e), g2, ev4)
            | none =>
              let nextIndex := (fi + 1) % frameCount
              let expected := g2.fenceValues.getD nextIndex 0
              match endFenceGate env nextIndex expected with
              | (some f, evw) => (some f, g2, ev4 ++ evw)
              | (none, evw) =>
                let rr := reclaimSlot g2 nextIndex
                (none, rr.1, ev4 ++ evw ++ rr.2)
        else (none, g1, ev2)

/-- Outcomes of the native calls made by `Graphics.SetVertices`. -/
structure SetVerticesEnv where
  createVertexBufferErr : Option String
  createIndexBufferErr : Option String
  mapVErr : Option String
  unmapVErr : Option String
  mapIErr : Option String
  unmapIErr : Option String
deriving DecidableEq, Repr

/-- Environment in which every call in `SetVertices` succeeds. -/
def noSetVerticesErr : SetVerticesEnv := ⟨none, none, none, none, none, none⟩

/-- The error-path cleanup of `Graphics.SetVertices`: the `ferr`-conditional
defers release (in LIFO order: index buffer first) any buffer created during
this call and reset its slot entry to nil. -/
def setVerticesCleanup (g : GraphicsState) (fi vidx iidx : Nat)
    (createdV createdI : Bool) (vbuf ibuf : Nat) : GraphicsState × List Event :=
  let r1 :=
    if createdI then
      let isl := (g.indices.getD fi .nilSlice).setElem iidx none
      ({ g with dev := g.dev.release ibuf, indices := g.indices.set fi isl },
       [Event.releaseObj ibuf])
    else (g, [])
  let g1 := r1.1
  let r2 :=
    if createdV then
      let vsl := (g1.vertices.getD fi .nilSlice).setElem vidx none
      ({ g1 with dev := g1.dev.release vbuf, vertices := g1.vertices.set fi vsl },
       [Event.releaseObj vbuf])
    else (g1, [])
  (r2.1, r1.2 ++ r2.2)

/-- Map/write/unmap tail of `Graphics.SetVertices`, plus the deferred
cleanup on failure. -/
def setVerticesTail (g : GraphicsState) (env : SetVerticesEnv)
    (fi vidx iidx : Nat) (createdV createdI : Bool) (vbuf ibuf : Nat)
    (evs : List Event) : Option Failure × GraphicsState × List Event :=
  match env.mapVErr with
  | some e =>
    let c := setVerticesCleanup g fi vidx iidx createdV createdI vbuf ibuf
    (some (.err e), c.1, evs ++ c.2)
  | none =>
    let evs1 := evs ++ [.mapWrite vbuf]
    match env.unmapVErr with
    | some e =>
      let c := setVerticesCleanup g fi vidx iidx createdV createdI vbuf ibuf
      (some (.err e), c.1, evs1 ++ c.2)
    | none =>
      match env.mapIErr with
      | some e =>
        let c := setVerticesCleanup g fi vidx iidx createdV createdI vbuf ibuf
        (some (.err e), c.1, evs1 ++ c.2)
      | none =>
        let evs2 := evs1 ++ [.mapWrite ibuf]
        match env.unmapIErr with
        | some e =>
          let c := setVerticesCleanup g fi vidx iidx createdV createdI vbuf ibuf
          (some (.err e), c.1, evs2 ++ c.2)
        | none => (none, g, evs2)

/-- The buffer-list growth step shared by the vertex and index halves of
`Graphics.SetVertices`: grow the slot's list by one entry (re-exposing a
previously allocated buffer when the backing array still holds one), and
create the buffer on first use.  Returns the error, the device state, the
grown list, whether a buffer was created during this call, and the buffer. -/
def setVerticesGrow (dev : DeviceState) (l : List (GoSlice (Option Nat)))
    (fi : Nat) (createErr : Option String) :
    Option Failure × DeviceState × List (GoSlice (Option Nat)) × Bool × Nat × List Event :=
  let s0 := l.getD fi .nilSlice
  let idx := s0.len
  let s1 := s0.extendReuse
  let l1 := l.set fi s1
  match s1.getElem0 idx with
  | none =>
    match createErr with
    | some e => (some (.err e), dev, l1, false, 0, [])
    | none =>
      let r := dev.create
      (none, r.2, l1.set fi ((l1.getD fi .nilSlice).setElem idx (some r.1)),
       true, r.1, [.allocObj r.1])
  | some b => (none, dev, l1, false, b, [])

/-- The `Graphics.SetVertices` method: grow the current slot's vertex and
index buffer lists by one entry each (reusing previously allocated buffers
when the backing array still holds them), create the buffers on first use,
then map/write/unmap the vertex and index data.  Buffers created during a
call that later fails are released by the deferred cleanups. -/
def Graphics.SetVertices (g : GraphicsState) (env : SetVerticesEnv) :
    Option Failure × GraphicsState × List Event :=
  let fi := g.frameIndex
  let vidx := (g.vertices.getD fi .nilSlice).len
  match setVerticesGrow g.dev g.vertices fi env.createVertexBufferErr with
  | (some f, dev1, l1, _, _, ev) => (some f, { g with dev := dev1, vertices := l1 }, ev)
  | (none, dev1, l1, createdV, vbuf, ev) =>
    let g2 := { g with dev := dev1, vertices := l1 }
    let iidx := (g2.indices.getD fi .nilSlice).len
    match setVerticesGrow g2.dev g2.indices fi env.createIndexBufferErr with
    | (some f, dev2, l2, _, _, ev2) =>
      let g4 := { g2 with dev := dev2, indices := l2 }
      let c := setVerticesCleanup g4 fi vidx iidx createdV false vbuf 0
      (some f, c.1, ev ++ ev2 ++ c.2)
    | (none, dev2, l2, createdI, ibuf, ev2) =>
      let g4 := { g2 with dev := dev2, indices := l2 }
      setVerticesTail g4 env fi vidx iidx createdV createdI vbuf ibuf (ev ++ ev2)

/-- Modelled from the spec: `graphics.InternalImageSize` lives in the
`internal/graphics` package, which is not under `src/`; internal (non-screen)
image extents are rounded up to the next power of two. -/
def InternalImageSize (x : Nat) : Nat := 2 ^ Nat.clog 2 x

/-- The `Image.internalSize` method. -/
def Image.internalSize (i : ImageState) : Nat × Nat :=
  if i.screen then (i.width, i.height)
  else (InternalImageSize i.width, InternalImageSize i.height)

/-- The `Image.setAsRenderTarget` method: transition to the render-target
state, mark the image as needing synchronization, create the image's RTV
descriptor heap on first use, and set it as the render target. -/
def Image.setAsRenderTarget (g : GraphicsState) (imgId : Nat) (i : ImageState)
    (createRTVHeapErr : Option String) :
    Option Failure × GraphicsState × List Event :=
  let r := Image.transiteState g i _D3D12_RESOURCE_STATE_RENDER_TARGET
  let i1 := { r.1 with needsSync := true }
  let g1 := { g with images := setImage g.images imgId i1 }
  if i1.screen then
    (none, g1, r.2 ++ [.omSetRenderTargets 0])
  else
    match i1.rtvDescriptorHeap with
    | some h => (none, g1, r.2 ++ [.omSetRenderTargets h])
    | none =>
      match createRTVHeapErr with
      | some e => (some (.err e), g1, r.2)
      | none =>
        let rc := g1.dev.create
        let h := rc.1
        let dev1 := { rc.2 with heaps := (h, 1) :: rc.2.heaps }
        let i2 := { i1 with rtvDescriptorHeap := some h }
        let g2 := { g1 with dev := dev1, images := setImage g1.images imgId i2 }
        (none, g2, r.2 ++ [.createHeap h 1, .omSetRenderTargets h])

/-- Outcomes of the native calls made by `Graphics.DrawTriangles` beyond
those of `useGraphicsPipelineState`. -/
structure DrawEnv where
  use : UseEnv
  createRTVHeapErr : Option String
deriving DecidableEq, Repr

/-- Environment in which every call in `DrawTriangles` succeeds. -/
def noDrawErr : DrawEnv := ⟨noUseErr, none⟩

/-- The `Graphics.DrawTriangles` method: look up the destination, reject
custom shaders, set the destination as render target, transition the source
to the shader-resource state, bind the pipeline/descriptors, set viewport and
scissor, bind the LAST entry of the current slot's vertex and index buffer
lists, and record the indexed draw.  The Go expression
`g.vertices[g.frameIndex][len(g.vertices[g.frameIndex])-1]` panics with an
index-out-of-range error when the slot's list is empty. -/
def Graphics.DrawTriangles (g : GraphicsState) (env : DrawEnv)
    (dstID src0 : Nat) (shaderID : Option Nat) (indexLen indexOffset : Nat)
    (mode : CompositeMode) (dstRegionX dstRegionY dstRegionW dstRegionH : Nat) :
    Option Failure × GraphicsState × List Event :=
  let dstOpt := findImage g.images dstID
  match shaderID with
  | some _ => (some (.err "directx: shader is not implemented yet"), g, [])
  | none =>
    match dstOpt with
    | none => (some (.panicked "runtime error: invalid memory address or nil pointer dereference"), g, [])
    | some dst =>
      match Image.setAsRenderTarget g dstID dst env.createRTVHeapErr with
      | (some f, g1, ev1) => (some f, g1, ev1)
      | (none, g1, ev1) =>
        let dst1 := (findImage g1.images dstID).getD dst
        let key : pipelineStatesKey := ⟨mode, dst1.screen⟩
        let wh := Image.internalSize dst1
        match findImage g1.images src0 with
        | none => (some (.panicked "runtime error: invalid memory address or nil pointer dereference"), g1, ev1)
        | some src =>
          let rt := Image.transiteState g1 src _D3D12_RESOURCE_STATE_PIXEL_SHADER_RESOURCE
          let g2 := { g1 with images := setImage g1.images src0 rt.1 }
          let ev2 := ev1 ++ rt.2
          let srcRes := (Image.resource g2 rt.1).getD 0
          match pipelineStates.useGraphicsPipelineState g2.ps g2.dev env.use
              g2.frameIndex key wh.1 wh.2 srcRes with
          | (some f, p1, dev1, ev3) =>
            (some f, { g2 with ps := p1, dev := dev1 }, ev2 ++ ev3)
          | (none, p1, dev1, ev3) =>
            let g3 := { g2 with ps := p1, dev := dev1 }
            let ev4 := ev2 ++ ev3 ++
              [.setViewport wh.1 wh.2,
               .setScissor dstRegionX dstRegionY dstRegionW dstRegionH]
            let vs := g3.vertices.getD g3.frameIndex .nilSlice
            if vs.len = 0 then
              (some (.panicked "runtime error: index out of range [-1]"), g3, ev4)
            else
              let vbuf := (vs.getElem0 (vs.len - 1)).getD 0
              let is := g3.indices.getD g3.frameIndex .nilSlice
              if is.len = 0 then
                (some (.panicked "runtime error: index out of range [-1]"), g3,
                 ev4 ++ [.setVertexBuffer vbuf])
              else
                let ibuf := (is.getElem0 (is.len - 1)).getD 0
                (none, g3, ev4 ++
                  [.setVertexBuffer vbuf, .setIndexBuffer ibuf,
                   .drawIndexed indexLen indexOffset])

/-- Iterated application of `Image.transiteState` for a list of requested
states, collecting the emitted barriers in order. -/
def runTransitions (g : GraphicsState) (i : ImageState) (reqs : List Nat) :
    ImageState × List Event :=
  match reqs with
  | [] => (i, [])
  | s :: rest =>
    let r := Image.transiteState g i s
    let r2 := runTransitions g r.1 rest
    (r2.1, r.2 ++ r2.2)

/-- The state a resource was last transitioned to by the recorded barrier
events, starting from `init` when no barrier was recorded. -/
def lastStateAfter (init : Nat) (evs : List Event) : Nat :=
  match evs with
  | [] => init
  | Event.transitionBarrier _ _ a :: rest => lastStateAfter a rest
  | _ :: rest => lastStateAfter init rest

/-- Pipeline-states value with no cache entries, as used by concrete runs. -/
def emptyPS : pipelineStates := ⟨[], none, 0, none, 0, [.nilSlice, .nilSlice]⟩

/-- Device state with no live objects (fresh identifiers start at 1, so the
Go nil pointer 0 collides with no identifier). -/
def emptyDev : DeviceState := ⟨1, [], [], []⟩

/-- A small concrete graphics state holding no images. -/
def c9g : GraphicsState :=
  ⟨0, [0, 0], [none, none], [.nilSlice, .nilSlice], [.nilSlice, .nilSlice],
   none, [], none, [[], []], emptyPS, emptyDev⟩

/-- A non-screen image in the pixel-shader-resource state 0, texture 5. -/
def c9img : ImageState := ⟨16, 16, false, 0, some 5, none, none, false⟩

def firstBuildErr (env : DeviceEnv) : Option String :=
  match env.serializeErr with
  | some e => some e
  | none =>
    match env.createRootSigErr with
    | some e => some e
    | none =>
      match env.compileVSErr with
      | some e => some e
      | none =>
        match env.compilePSErr with
        | some e => some e
        | none => env.createPSOErr

/-- Composite mode source-over (src One, dst OneMinusSrcAlpha) for the
screen target, as used by the C5 witness. -/
def c5key : pipelineStatesKey := ⟨⟨OpOne, OpOneMinusSrcAlpha⟩, true⟩

def c5psv : pipelineStatesValue := ⟨2, 3, 4, 5⟩

def c5desc : RenderTargetBlendDesc :=
  ⟨true, .ONE, .INV_SRC_ALPHA, .ADD, .ONE, .INV_SRC_ALPHA, .ADD⟩

def c5psAfter : pipelineStates := { emptyPS with cache := [(c5key, c5psv)] }

def c5devAfter : DeviceState := ⟨6, [5, 4, 3, 2], [], [(5, c5desc)]⟩

def c5ev : List Event :=
  [.allocObj 1, .allocObj 2, .allocObj 3, .allocObj 4, .allocObj 5, .releaseObj 1]

/-- Key and cached entry for the C7 witness, with slot 0 already holding the
full budget of 512 constant buffers. -/
def c7key : pipelineStatesKey := ⟨⟨OpOne, OpZero⟩, false⟩

def c7psv : pipelineStatesValue := ⟨2, 3, 4, 5⟩

def c7ps : pipelineStates :=
  ⟨[(c7key, c7psv)], some 1, 32, some 2, 0,
   [⟨512, List.replicate 512 (some 7)⟩, .nilSlice]⟩

/-- Key, entry and after-states for the C3 witness (source-over, offscreen
target, built on the empty cache). -/
def c3key : pipelineStatesKey := ⟨⟨OpOne, OpOneMinusSrcAlpha⟩, false⟩

def c3psv : pipelineStatesValue := ⟨2, 3, 4, 5⟩

def c3psAfter : pipelineStates := { emptyPS with cache := [(c3key, c3psv)] }

def c3devAfter : DeviceState :=
  ⟨6, [5, 4, 3, 2], [],
   [(5, ⟨true, .ONE, .INV_SRC_ALPHA, .ADD, .ONE, .INV_SRC_ALPHA, .ADD⟩)]⟩

def c3ev : List Event :=
  [.allocObj 1, .allocObj 2, .allocObj 3, .allocObj 4, .allocObj 5, .releaseObj 1]

/-- Environment failing at the vertex-shader compile step for the C8
witness, and the resulting device state. -/
def c8env : DeviceEnv :=
  ⟨none, none, some "directx: vertex shader compilation failed", none, none⟩

def c8key : pipelineStatesKey := ⟨⟨OpZero, OpZero⟩, false⟩

def c8devAfter : DeviceState := ⟨3, [], [], []⟩

def c8ev : List Event := [.allocObj 1, .allocObj 2, .releaseObj 2, .releaseObj 1]

/-- Cached key for the concrete C2 runs. -/
def c2key : pipelineStatesKey := ⟨⟨OpOne, OpZero⟩, false⟩

def c2psv : pipelineStatesValue := ⟨2, 3, 4, 5⟩

/-- Slot 0 already holds 51 draws (well under the 512-draw guard). -/
def c2psA : pipelineStates :=
  ⟨[(c2key, c2psv)], some 1, 32, some 2, 0,
   [⟨51, List.replicate 51 (some 3)⟩, .nilSlice]⟩

/-- Slot 1 holds no draws yet. -/
def c2psB : pipelineStates :=
  ⟨[(c2key, c2psv)], some 1, 32, some 2, 1, [.nilSlice, ⟨0, []⟩]⟩

/-- Slot 1 already holds 461 draws (still under the 512-draw guard). -/
def c2psC : pipelineStates :=
  ⟨[(c2key, c2psv)], some 1, 32, some 2, 1,
   [.nilSlice, ⟨461, List.replicate 461 (some 3)⟩]⟩

/-- The error `Graphics.Begin` returns: the allocator reset error if any,
else the command-list reset error, else nil. -/
def beginErr (env : BeginEnv) : Option Failure :=
  match env.allocatorResetErr with
  | some e => some (.err e)
  | none =>
    match env.listResetErr with
    | some e => some (.err e)
    | none => none

/-- Graphics state with no swap chain and current frame index 0, for the C6
counterexample. -/
def c6g : GraphicsState :=
  ⟨0, [0, 0], [none, none], [.nilSlice, .nilSlice], [.nilSlice, .nilSlice],
   none, [], none, [[], []], emptyPS, emptyDev⟩

def c6env : BeginEnv := ⟨1, none, none⟩

/-- Graphics state with a swap chain, for the C6 witness. -/
def c6g2 : GraphicsState :=
  ⟨0, [0, 0], [some 5, some 6], [.nilSlice, .nilSlice], [.nilSlice, .nilSlice],
   some 4, [], none, [[], []], emptyPS, emptyDev⟩

def c6env2 : BeginEnv := ⟨1, none, none⟩

def c6g2After : GraphicsState := { c6g2 with frameIndex := 1 }

def scrImg : ImageState := ⟨32, 32, true, 4, none, none, none, false⟩

def c1img : ImageState := ⟨16, 16, false, 0, some 11, none, none, false⟩

def c1g : GraphicsState :=
  ⟨1, [9, 2], [none, none], [⟨1, [some 5]⟩, .nilSlice], [⟨1, [some 6]⟩, .nilSlice],
   some 30, [(100, scrImg)], some 100, [[c1img], []], emptyPS, ⟨20, [11], [], []⟩⟩

def c1env : EndEnv := ⟨none, none, none, 4, none, .timedOut⟩

def c1gAfter : GraphicsState :=
  ⟨1, [9, 3], [none, none], [⟨0, [some 5]⟩, ⟨0, []⟩], [⟨0, [some 6]⟩, ⟨0, []⟩],
   some 30, [(100, { scrImg with state := 0 })], some 100, [[], []], emptyPS,
   ⟨20, [], [], []⟩⟩

def c1ev : List Event :=
  [.transitionBarrier 0 4 0, .closeList, .execute, .presentCall,
   .signalFence 1 3, .waitFence 0 9, .releaseObj 11]

def scr4 : ImageState := ⟨32, 32, true, 0, none, none, none, false⟩

def c4img : ImageState := ⟨8, 8, false, 0, some 7, none, none, false⟩

def c4g : GraphicsState :=
  ⟨0, [4, 5], [none, none], [.nilSlice, ⟨1, [some 3]⟩], [.nilSlice, ⟨1, [some 3]⟩],
   some 6, [(1, scr4)], some 1, [[], [c4img]], emptyPS, ⟨10, [7], [], []⟩⟩

def c4env : EndEnv := ⟨none, none, none, 3, none, .timedOut⟩

def c10dst : ImageState := ⟨32, 32, true, 0, none, none, none, false⟩

def c10src : ImageState := ⟨16, 16, false, 0, some 9, none, none, false⟩

def c10g : GraphicsState :=
  ⟨0, [0, 0], [some 40, none], [.nilSlice, .nilSlice], [.nilSlice, .nilSlice],
   some 30, [(1, c10dst), (2, c10src)], some 1, [[], []], emptyPS, ⟨50, [9], [], []⟩⟩

def c10mode : CompositeMode := ⟨OpOne, OpOneMinusSrcAlpha⟩

def c10sg : GraphicsState :=
  ⟨0, [0, 0], [none, none], [.nilSlice, .nilSlice], [.nilSlice, .nilSlice],
   none, [], none, [[], []], emptyPS, ⟨1, [], [], []⟩⟩

def c10sgAfter : GraphicsState :=
  ⟨0, [0, 0], [none, none], [⟨1, [some 1]⟩, .nilSlice], [⟨1, [some 2]⟩, .nilSlice],
   none, [], none, [[], []], emptyPS, ⟨3, [2, 1], [], []⟩⟩

def c10sev : List Event := [.allocObj 1, .allocObj 2, .mapWrite 1, .mapWrite 2]

/-- C9: `transiteState` is a no-op when the image's tracked state already
equals the required state; otherwise it records exactly one transition
barrier naming the resource, the tracked prior state and the required state,
and sets the tracked state to the required state; consequently, over any
sequence of calls the tracked state equals the state last transitioned to
(the initial state when no barrier was emitted). -/
theorem C9_transiteState_contract :
    (∀ (g : GraphicsState) (i : ImageState) (ns : Nat), i.state = ns →
      Image.transiteState g i ns = (i, [])) ∧
    (∀ (g : GraphicsState) (i : ImageState) (ns : Nat), i.state ≠ ns →
      Image.transiteState g i ns =
        ({ i with state := ns },
         [Event.transitionBarrier ((Image.resource g i).getD 0) i.state ns])) ∧
    (∀ (g : GraphicsState) (i : ImageState) (reqs : List Nat),
      (runTransitions g i reqs).1.state =
        lastStateAfter i.state (runTransitions g i reqs).2) := by
  refine ⟨?_, ?_, ?_⟩
  · intro g i ns h
    simp [Image.transiteState, h]
  · intro g i ns h
    simp [Image.transiteState, h]
  · intro g i reqs
    induction reqs generalizing i with
    | nil => simp [runTransitions, lastStateAfter]
    | cons s rest ih =>
      by_cases h : i.state = s
      · simpa [runTransitions, Image.transiteState, h, lastStateAfter] using ih i
      · simpa [runTransitions, Image.transiteState, h, lastStateAfter]
          using ih { i with state := s }

/-- Witness for C9 at a concrete image: the no-op branch at the current
state, and the single-barrier branch for a render-target transition. -/
theorem C9_transiteState_contract_witness :
    Image.transiteState c9g c9img _D3D12_RESOURCE_STATE_PRESENT = (c9img, []) ∧
    Image.transiteState c9g c9img _D3D12_RESOURCE_STATE_RENDER_TARGET =
      ({ c9img with state := 4 }, [Event.transitionBarrier 5 0 4]) := by
  constructor
  · exact C9_transiteState_contract.1 c9g c9img _ rfl
  · have h := C9_transiteState_contract.2.1 c9g c9img
      _D3D12_RESOURCE_STATE_RENDER_TARGET (by decide)
    simpa using h

theorem graphicsPipelineState_build_success
    (p : pipelineStates) (dev : DeviceState) (env : DeviceEnv) (key : pipelineStatesKey)
    (psv : pipelineStatesValue) (p1 : pipelineStates) (dev1 : DeviceState) (ev : List Event)
    (hmiss : findCache p.cache key = none)
    (h : pipelineStates.graphicsPipelineState p dev env key = (none, psv, p1, dev1, ev)) :
    ∃ desc, renderTargetBlendDescFor key = some desc ∧
      (psv.state, desc) ∈ dev1.psoBlend ∧
      p1.cache = (key, psv) :: p.cache := by
  obtain ⟨se, cre, cvs, cps, cpso⟩ := env
  unfold pipelineStates.graphicsPipelineState at h
  rw [hmiss] at h
  cases se with
  | some e => simp at h
  | none =>
    cases cre with
    | some e => simp at h
    | none =>
      cases cvs with
      | some e => simp at h
      | none =>
        cases cps with
        | some e => simp at h
        | none =>
          cases hdesc : renderTargetBlendDescFor key with
          | none => rw [hdesc] at h; simp at h
          | some desc =>
            rw [hdesc] at h
            cases cpso with
            | some e => simp at h
            | none =>
              simp only [Prod.mk.injEq] at h
              obtain ⟨-, hpsv, hp1, hdev1, -⟩ := h
              refine ⟨desc, rfl, ?_, ?_⟩
              · rw [← hdev1, ← hpsv]
                simp [DeviceState.release, DeviceState.create]
              · rw [← hp1, ← hpsv]

theorem graphicsPipelineState_success_cached
    (p : pipelineStates) (dev : DeviceState) (env : DeviceEnv) (key : pipelineStatesKey)
    (psv : pipelineStatesValue) (p1 : pipelineStates) (dev1 : DeviceState) (ev : List Event)
    (h : pipelineStates.graphicsPipelineState p dev env key = (none, psv, p1, dev1, ev)) :
    findCache p1.cache key = some psv := by
  cases hc : findCache p.cache key with
  | some s =>
    unfold pipelineStates.graphicsPipelineState at h
    rw [hc] at h
    simp only [Prod.mk.injEq] at h
    obtain ⟨-, hpsv, hp1, -, -⟩ := h
    rw [← hp1, hc, hpsv]
  | none =>
    obtain ⟨desc, -, -, hcache⟩ :=
      graphicsPipelineState_build_success p dev env key psv p1 dev1 ev hc h
    rw [hcache]
    simp [findCache]

theorem C8_build_failure_clean :
    ∀ (p : pipelineStates) (dev : DeviceState) (env : DeviceEnv)
      (key : pipelineStatesKey) (e : String) (psv : pipelineStatesValue)
      (p1 : pipelineStates) (dev1 : DeviceState) (ev : List Event),
      pipelineStates.graphicsPipelineState p dev env key =
        (some (.err e), psv, p1, dev1, ev) →
      psv = zeroPSV ∧ p1.cache = p.cache ∧ dev1.live = dev.live ∧
        firstBuildErr env = some e := by
  intro p dev env key e psv p1 dev1 ev h
  obtain ⟨se, cre, cvs, cps, cpso⟩ := env
  unfold pipelineStates.graphicsPipelineState at h
  cases hc : findCache p.cache key with
  | some s => rw [hc] at h; simp at h
  | none =>
    rw [hc] at h
    cases se with
    | some e1 =>
      simp only [Prod.mk.injEq, Failure.err.injEq, Option.some.injEq] at h
      obtain ⟨he, hpsv, hp1, hdev1, -⟩ := h
      exact ⟨hpsv.symm, by rw [← hp1], by rw [← hdev1], by simp [firstBuildErr, he]⟩
    | none =>
      cases cre with
      | some e1 =>
        simp only [Prod.mk.injEq, Failure.err.injEq, Option.some.injEq] at h
        obtain ⟨he, hpsv, hp1, hdev1, -⟩ := h
        refine ⟨hpsv.symm, by rw [← hp1], ?_, by simp [firstBuildErr, he]⟩
        rw [← hdev1]
        simp [DeviceState.release, DeviceState.create]
      | none =>
        cases cvs with
        | some e1 =>
          simp only [Prod.mk.injEq, Failure.err.injEq, Option.some.injEq] at h
          obtain ⟨he, hpsv, hp1, hdev1, -⟩ := h
          refine ⟨hpsv.symm, by rw [← hp1], ?_, by simp [firstBuildErr, he]⟩
          rw [← hdev1]
          simp [DeviceState.release, DeviceState.create]
        | none =>
          cases cps with
          | some e1 =>
            simp only [Prod.mk.injEq, Failure.err.injEq, Option.some.injEq] at h
            obtain ⟨he, hpsv, hp1, hdev1, -⟩ := h
            refine ⟨hpsv.symm, by rw [← hp1], ?_, by simp [firstBuildErr, he]⟩
            rw [← hdev1]
            simp [DeviceState.release, DeviceState.create]
          | none =>
            cases hdesc : renderTargetBlendDescFor key with
            | none => rw [hdesc] at h; simp at h
            | some desc =>
              rw [hdesc] at h
              cases cpso with
              | some e1 =>
                simp only [Prod.mk.injEq, Failure.err.injEq, Option.some.injEq] at h
                obtain ⟨he, hpsv, hp1, hdev1, -⟩ := h
                refine ⟨hpsv.symm, by rw [← hp1], ?_, by simp [firstBuildErr, he]⟩
                rw [← hdev1]
                simp [DeviceState.release, DeviceState.create]
              | none => simp at h

theorem graphicsPipelineState_cache_mono
    (p : pipelineStates) (dev : DeviceState) (env : DeviceEnv) (key : pipelineStatesKey)
    (k : pipelineStatesKey) (v : pipelineStatesValue)
    (h : findCache p.cache k = some v) :
    findCache (pipelineStates.graphicsPipelineState p dev env key).2.2.1.cache k = some v := by
  obtain ⟨se, cre, cvs, cps, cpso⟩ := env
  unfold pipelineStates.graphicsPipelineState
  cases hc : findCache p.cache key with
  | some s => simpa using h
  | none =>
    have hne : ¬(key = k) := by
      intro he
      rw [he, h] at hc
      cases hc
    cases se with
    | some e1 => simpa using h
    | none =>
      cases cre with
      | some e1 => simpa using h
      | none =>
        cases cvs with
        | some e1 => simpa using h
        | none =>
          cases cps with
          | some e1 => simpa using h
          | none =>
            cases hdesc : renderTargetBlendDescFor key with
            | none => simpa using h
            | some desc =>
              cases cpso with
              | some e1 => simpa using h
              | none => simpa [findCache, hne] using h

theorem useTail_state (p : pipelineStates) (dev : DeviceState) (env : UseEnv)
    (fi idx : Nat) (psv : pipelineStatesValue) (tex cb : Nat) (evs : List Event) :
    (useTail p dev env fi idx psv tex cb evs).2.1 = p ∧
    (useTail p dev env fi idx psv tex cb evs).2.2.1 = dev := by
  unfold useTail
  cases h1 : env.mapErr <;> cases h2 : env.unmapErr <;> simp [h1, h2]

theorem useGraphicsPipelineState_cache_eq
    (p : pipelineStates) (dev : DeviceState) (env : UseEnv) (fi : Nat)
    (key : pipelineStatesKey) (w h tex : Nat) :
    (pipelineStates.useGraphicsPipelineState p dev env fi key w h tex).2.1.cache =
    (pipelineStates.graphicsPipelineState p dev env.build key).2.2.1.cache := by
  unfold pipelineStates.useGraphicsPipelineState
  rcases hb : pipelineStates.graphicsPipelineState p dev env.build key with
    ⟨o, psv1, p1, dev1, ev1⟩
  cases o with
  | some f => simp
  | none =>
    simp only
    split
    all_goals
      split
      · simp
      · split
        · split
          · simp
          · rw [(useTail_state _ _ _ _ _ _ _ _ _).1]
        · rw [(useTail_state _ _ _ _ _ _ _ _ _).1]

theorem graphicsPipelineState_heaps_eq
    (p : pipelineStates) (dev : DeviceState) (env : DeviceEnv) (key : pipelineStatesKey) :
    (pipelineStates.graphicsPipelineState p dev env key).2.2.2.1.heaps = dev.heaps := by
  obtain ⟨se, cre, cvs, cps, cpso⟩ := env
  unfold pipelineStates.graphicsPipelineState
  cases hc : findCache p.cache key with
  | some s => simp
  | none =>
    cases se with
    | some e1 => simp
    | none =>
      cases cre with
      | some e1 => simp [DeviceState.release, DeviceState.create]
      | none =>
        cases cvs with
        | some e1 => simp [DeviceState.release, DeviceState.create]
        | none =>
          cases cps with
          | some e1 => simp [DeviceState.release, DeviceState.create]
          | none =>
            cases hdesc : renderTargetBlendDescFor key with
            | none => simp [DeviceState.release, DeviceState.create]
            | some desc =>
              cases cpso with
              | some e1 => simp [DeviceState.release, DeviceState.create]
              | none => simp [DeviceState.release, DeviceState.create]

theorem useGraphicsPipelineState_heaps_eq
    (p : pipelineStates) (dev : DeviceState) (env : UseEnv) (fi : Nat)
    (key : pipelineStatesKey) (w h tex : Nat) :
    (pipelineStates.useGraphicsPipelineState p dev env fi key w h tex).2.2.1.heaps = dev.heaps := by
  have hg := graphicsPipelineState_heaps_eq p dev env.build key
  unfold pipelineStates.useGraphicsPipelineState
  rcases hb : pipelineStates.graphicsPipelineState p dev env.build key with
    ⟨o, psv1, p1, dev1, ev1⟩
  rw [hb] at hg
  cases o with
  | some f => simpa using hg
  | none =>
    simp only
    split
    all_goals
      split
      · simpa using hg
      · split
        · split
          · simpa using hg
          · rw [(useTail_state _ _ _ _ _ _ _ _ _).2]
            simpa [DeviceState.create] using hg
        · rw [(useTail_state _ _ _ _ _ _ _ _ _).2]
          simpa using hg

/-- C5: the pipeline-state lookup is idempotent: after one successful build
for a key, a later call with the same key returns the identical cached entry
with the pipeline-states and device state unchanged and no events (no new
device object constructed, no recompilation); and cache entries are never
removed by `graphicsPipelineState` or `useGraphicsPipelineState`. -/
theorem C5_pipeline_cache_idempotent :
    (∀ (p : pipelineStates) (dev : DeviceState) (env : DeviceEnv)
       (key : pipelineStatesKey) (psv : pipelineStatesValue) (p1 : pipelineStates)
       (dev1 : DeviceState) (ev : List Event) (env2 : DeviceEnv),
      pipelineStates.graphicsPipelineState p dev env key = (none, psv, p1, dev1, ev) →
      pipelineStates.graphicsPipelineState p1 dev1 env2 key = (none, psv, p1, dev1, [])) ∧
    (∀ (p : pipelineStates) (dev : DeviceState) (env : DeviceEnv)
       (key k : pipelineStatesKey) (v : pipelineStatesValue),
      findCache p.cache k = some v →
      findCache (pipelineStates.graphicsPipelineState p dev env key).2.2.1.cache k = some v) ∧
    (∀ (p : pipelineStates) (dev : DeviceState) (env : UseEnv) (fi : Nat)
       (key k : pipelineStatesKey) (w h tex : Nat) (v : pipelineStatesValue),
      findCache p.cache k = some v →
      findCache (pipelineStates.useGraphicsPipelineState p dev env fi key w h tex).2.1.cache k = some v) := by
  refine ⟨?_, ?_, ?_⟩
  · intro p dev env key psv p1 dev1 ev env2 h
    have hc := graphicsPipelineState_success_cached p dev env key psv p1 dev1 ev h
    unfold pipelineStates.graphicsPipelineState
    rw [hc]
  · intro p dev env key k v h
    exact graphicsPipelineState_cache_mono p dev env key k v h
  · intro p dev env fi key k w h tex v hv
    rw [useGraphicsPipelineState_cache_eq]
    exact graphicsPipelineState_cache_mono p dev env.build key k v hv

/-- Witness for C5: after one successful build on the empty cache, a second
call with the same key returns the same entry unchanged with no events. -/
theorem C5_pipeline_cache_idempotent_witness :
    pipelineStates.graphicsPipelineState c5psAfter c5devAfter noDeviceErr c5key =
      (none, c5psv, c5psAfter, c5devAfter, []) :=
  C5_pipeline_cache_idempotent.1 emptyPS emptyDev noDeviceErr c5key c5psv c5psAfter
    c5devAfter c5ev noDeviceErr (by decide)

/-- C7: when a frame slot's recorded draw count has reached the fixed budget
(`numDescriptorsPerFrame * 2`), the next `useGraphicsPipelineState` call for
that slot returns the capacity error with the pipeline states, device state
and event list unchanged — no descriptor written, no buffer created — and no
call ever grows (or otherwise changes) the set of created descriptor
heaps. -/
theorem C7_capacity_error :
    (∀ (p : pipelineStates) (dev : DeviceState) (env : UseEnv) (fi : Nat)
       (key : pipelineStatesKey) (w h tex : Nat) (psv : pipelineStatesValue),
      findCache p.cache key = some psv →
      p.lastFrameIndex = fi →
      (p.constantBuffers.getD fi .nilSlice).len = numDescriptorsPerFrame * 2 →
      pipelineStates.useGraphicsPipelineState p dev env fi key w h tex =
        (some (.err "directx: too many constant buffers"), p, dev, [])) ∧
    (∀ (p : pipelineStates) (dev : DeviceState) (env : UseEnv) (fi : Nat)
       (key : pipelineStatesKey) (w h tex : Nat),
      (pipelineStates.useGraphicsPipelineState p dev env fi key w h tex).2.2.1.heaps = dev.heaps) := by
  constructor
  · intro p dev env fi key w h tex psv hcache hlast hlen
    subst hlast
    have hps : pipelineStates.graphicsPipelineState p dev env.build key =
        (none, psv, p, dev, []) := by
      unfold pipelineStates.graphicsPipelineState
      rw [hcache]
    unfold pipelineStates.useGraphicsPipelineState
    rw [hps]
    simp only [ne_eq, not_true_eq_false, if_false]
    rw [if_pos (le_of_eq hlen.symm)]
  · intro p dev env fi key w h tex
    exact useGraphicsPipelineState_heaps_eq p dev env fi key w h tex

/-- Witness for C7: at the full slot the call returns the capacity error and
changes nothing. -/
theorem C7_capacity_error_witness :
    pipelineStates.useGraphicsPipelineState c7ps emptyDev noUseErr 0 c7key 64 64 9 =
      (some (.err "directx: too many constant buffers"), c7ps, emptyDev, []) :=
  C7_capacity_error.1 c7ps emptyDev noUseErr 0 c7key 64 64 9 c7psv rfl rfl (by decide)

/-- C3: `operationToBlend` maps each of the named abstract blend operations
(Zero, One, SrcAlpha, DstAlpha, OneMinusSrcAlpha, OneMinusDstAlpha,
DstColor) to the corresponding D3D12 blend factor without reaching the panic
branch, and every pipeline entry built for a key applies the key's source
and destination factors identically to the color and alpha channels with the
additive blend operation. -/
theorem C3_blend_mapping :
    (operationToBlend OpZero = some .ZERO ∧
     operationToBlend OpOne = some .ONE ∧
     operationToBlend OpSrcAlpha = some .SRC_ALPHA ∧
     operationToBlend OpDstAlpha = some .DEST_ALPHA ∧
     operationToBlend OpOneMinusSrcAlpha = some .INV_SRC_ALPHA ∧
     operationToBlend OpOneMinusDstAlpha = some .INV_DEST_ALPHA ∧
     operationToBlend OpDstColor = some .DEST_COLOR) ∧
    (∀ (p : pipelineStates) (dev : DeviceState) (env : DeviceEnv)
       (key : pipelineStatesKey) (psv : pipelineStatesValue) (p1 : pipelineStates)
       (dev1 : DeviceState) (ev : List Event),
      findCache p.cache key = none →
      pipelineStates.graphicsPipelineState p dev env key = (none, psv, p1, dev1, ev) →
      ∃ sb db,
        operationToBlend key.compositeMode.Operations.1 = some sb ∧
        operationToBlend key.compositeMode.Operations.2 = some db ∧
        (psv.state,
          ({ BlendEnable := true, SrcBlend := sb, DestBlend := db,
             BlendOp := .ADD, SrcBlendAlpha := sb, DestBlendAlpha := db,
             BlendOpAlpha := .ADD } : RenderTargetBlendDesc)) ∈ dev1.psoBlend) := by
  constructor
  · exact ⟨rfl, rfl, rfl, rfl, rfl, rfl, rfl⟩
  · intro p dev env key psv p1 dev1 ev hmiss h
    obtain ⟨desc, hdesc, hmem, -⟩ :=
      graphicsPipelineState_build_success p dev env key psv p1 dev1 ev hmiss h
    simp only [renderTargetBlendDescFor] at hdesc
    cases hsb : operationToBlend key.compositeMode.Operations.1 with
    | none => rw [hsb] at hdesc; simp at hdesc
    | some sb =>
      cases hdb : operationToBlend key.compositeMode.Operations.2 with
      | none => rw [hsb, hdb] at hdesc; simp at hdesc
      | some db =>
        rw [hsb, hdb] at hdesc
        simp only [Option.some.injEq] at hdesc
        refine ⟨sb, db, rfl, rfl, ?_⟩
        rw [hdesc]
        exact hmem

/-- Witness for C3: the entry built for source-over carries the One /
InvSrcAlpha factors on both color and alpha channels with additive ops. -/
theorem C3_blend_mapping_witness :
    ∃ sb db,
      operationToBlend c3key.compositeMode.Operations.1 = some sb ∧
      operationToBlend c3key.compositeMode.Operations.2 = some db ∧
      (c3psv.state,
        ({ BlendEnable := true, SrcBlend := sb, DestBlend := db,
           BlendOp := .ADD, SrcBlendAlpha := sb, DestBlendAlpha := db,
           BlendOpAlpha := .ADD } : RenderTargetBlendDesc)) ∈ c3devAfter.psoBlend :=
  C3_blend_mapping.2 emptyPS emptyDev noDeviceErr c3key c3psv c3psAfter
    c3devAfter c3ev rfl (by decide)

/-- Witness for C8: a failed vertex-shader compile propagates its error,
stores no cache entry, and leaves no live intermediate object. -/
theorem C8_build_failure_clean_witness :
    zeroPSV = zeroPSV ∧ emptyPS.cache = emptyPS.cache ∧
      c8devAfter.live = emptyDev.live ∧
      firstBuildErr c8env = some "directx: vertex shader compilation failed" :=
  C8_build_failure_clean emptyPS emptyDev c8env c8key
    "directx: vertex shader compilation failed" zeroPSV emptyPS c8devAfter c8ev
    (by decide)

/-- C2 (code bug): the heap created by `initialize` has
`frameCount * numDescriptorsPerFrame * numConstantBufferAndSourceTextures`
= 2560 descriptors, but the per-frame stride of `descriptorIndex` is only
`numDescriptorsPerFrame` = 256 while each draw consumes 5 descriptors and
the guard allows 512 draws per slot.  Consequences, all within the allowed
draw budget: draw 51 of slot 0 writes its shader-resource view at heap index
256, the very index where draw 0 of slot 1 writes its constant-buffer view
(regions of distinct (frameSlot, drawIndex) pairs alias); and draw 461 of
slot 1 writes its views at heap indices 2561 and 2562, beyond the heap's
2560-descriptor capacity, with no error returned. -/
theorem C2_descriptor_regions_alias_and_overflow :
    (( pipelineStates.initialize emptyPS emptyDev ⟨none, 32, none⟩).2.2.1.heaps =
      [(2, 1), (1, frameCount * numDescriptorsPerFrame * numConstantBufferAndSourceTextures)]) ∧
    frameCount * numDescriptorsPerFrame * numConstantBufferAndSourceTextures = 2560 ∧
    (Event.writeSRV 256 9 ∈
      (pipelineStates.useGraphicsPipelineState c2psA emptyDev noUseErr 0 c2key 64 64 9).2.2.2) ∧
    (Event.writeCBV 256 1 ∈
      (pipelineStates.useGraphicsPipelineState c2psB emptyDev noUseErr 1 c2key 64 64 9).2.2.2) ∧
    ((pipelineStates.useGraphicsPipelineState c2psA emptyDev noUseErr 0 c2key 64 64 9).1 = none) ∧
    ((pipelineStates.useGraphicsPipelineState c2psB emptyDev noUseErr 1 c2key 64 64 9).1 = none) ∧
    descriptorIndex 0 51 + 1 = descriptorIndex 1 0 ∧
    ¬((0, 51) = ((1 : Nat), (0 : Nat))) ∧
    51 < numDescriptorsPerFrame * 2 ∧ 461 < numDescriptorsPerFrame * 2 ∧
    (Event.writeCBV 2561 1 ∈
      (pipelineStates.useGraphicsPipelineState c2psC emptyDev noUseErr 1 c2key 64 64 9).2.2.2) ∧
    (Event.writeSRV 2562 9 ∈
      (pipelineStates.useGraphicsPipelineState c2psC emptyDev noUseErr 1 c2key 64 64 9).2.2.2) ∧
    ((pipelineStates.useGraphicsPipelineState c2psC emptyDev noUseErr 1 c2key 64 64 9).1 = none) ∧
    descriptorIndex 1 461 = 2561 ∧ 2560 ≤ 2561 := by
  set_option maxRecDepth 4000 in decide

/-- C6 counterexample: with no swap chain and current frame index 0, `Begin`
succeeds and selects slot 0 again — not the round-robin successor slot 1
the claim describes for that case. -/
theorem C6_begin_not_round_robin :
    c6g.swapChain = none ∧ c6g.frameIndex = 0 ∧
    (Graphics.Begin c6g c6env).1 = none ∧
    (Graphics.Begin c6g c6env).2.1.frameIndex = 0 ∧
    (c6g.frameIndex + 1) % frameCount = 1 ∧
    (Graphics.Begin c6g c6env).2.1.frameIndex ≠ (c6g.frameIndex + 1) % frameCount := by
  decide

/-- C6 (amended): `Begin` selects slot 0 while no swap chain exists, and the
swap chain's reported current back-buffer index once one exists; it then
resets that slot's command allocator and resets the command list onto it,
returning the first reset error and changing nothing but the frame index. -/
theorem C6_begin_slot_selection :
    ∀ (g : GraphicsState) (env : BeginEnv) (r : Option Failure)
      (g1 : GraphicsState) (ev : List Event),
      Graphics.Begin g env = (r, g1, ev) →
      (g.swapChain = none → g1.frameIndex = 0) ∧
      (g.swapChain ≠ none → g1.frameIndex = env.backBufferIndex) ∧
      r = beginErr env ∧
      (r = none → ev = [Event.resetAllocator g1.frameIndex, Event.resetList g1.frameIndex]) ∧
      g1 = { g with frameIndex := g1.frameIndex } := by
  intro g env r g1 ev h
  obtain ⟨bbi, ae, le⟩ := env
  unfold Graphics.Begin at h
  cases hsc : g.swapChain with
  | none =>
    rw [hsc] at h
    cases ae with
    | some e =>
      simp only [Prod.mk.injEq] at h
      obtain ⟨hr, hg1, hev⟩ := h
      subst hg1
      subst hr
      subst hev
      simp [beginErr]
    | none =>
      cases le with
      | some e =>
        simp only [Prod.mk.injEq] at h
        obtain ⟨hr, hg1, hev⟩ := h
        subst hg1
        subst hr
        subst hev
        simp [beginErr]
      | none =>
        simp only [Prod.mk.injEq] at h
        obtain ⟨hr, hg1, hev⟩ := h
        subst hg1
        subst hr
        subst hev
        simp [beginErr]
  | some sc =>
    rw [hsc] at h
    cases ae with
    | some e =>
      simp only [Prod.mk.injEq] at h
      obtain ⟨hr, hg1, hev⟩ := h
      subst hg1
      subst hr
      subst hev
      simp [beginErr]
    | none =>
      cases le with
      | some e =>
        simp only [Prod.mk.injEq] at h
        obtain ⟨hr, hg1, hev⟩ := h
        subst hg1
        subst hr
        subst hev
        simp [beginErr]
      | none =>
        simp only [Prod.mk.injEq] at h
        obtain ⟨hr, hg1, hev⟩ := h
        subst hg1
        subst hr
        subst hev
        simp [beginErr]

/-- Witness for the amended C6 at a concrete state with a swap chain
reporting back-buffer index 1. -/
theorem C6_begin_slot_selection_witness :
    (c6g2.swapChain = none → c6g2After.frameIndex = 0) ∧
    (c6g2.swapChain ≠ none → c6g2After.frameIndex = c6env2.backBufferIndex) ∧
    (none : Option Failure) = beginErr c6env2 ∧
    ((none : Option Failure) = none →
      [Event.resetAllocator 1, Event.resetList 1] =
        [Event.resetAllocator c6g2After.frameIndex, Event.resetList c6g2After.frameIndex]) ∧
    c6g2After = { c6g2 with frameIndex := c6g2After.frameIndex } :=
  C6_begin_slot_selection c6g2 c6env2 none c6g2After
    [Event.resetAllocator 1, Event.resetList 1] (by decide)

theorem getD_set_self {α : Type} (l : List α) (n : Nat) (a d : α) :
    (l.set n a).getD n d = if n < l.length then a else d := by
  induction l generalizing n with
  | nil => simp [List.set]
  | cons x xs ih =>
    cases n with
    | zero => simp
    | succ m => simpa [Nat.succ_lt_succ_iff] using ih m

theorem getD_set_ne {α : Type} (l : List α) (m n : Nat) (a d : α) (h : m ≠ n) :
    (l.set m a).getD n d = l.getD n d := by
  induction l generalizing m n with
  | nil => simp [List.set]
  | cons x xs ih =>
    cases m with
    | zero =>
      cases n with
      | zero => exact absurd rfl h
      | succ k => simp
    | succ j =>
      cases n with
      | zero => simp
      | succ k => simpa using ih j k (by omega)

theorem frameIndex_ne_next (fi : Nat) : fi ≠ (fi + 1) % frameCount := by
  simp only [frameCount]
  omega

theorem extendReuse_len (s : GoSlice (Option Nat)) : s.extendReuse.len = s.len + 1 := by
  unfold GoSlice.extendReuse
  split <;> rfl

theorem setElem_len {α : Type} (s : GoSlice α) (i : Nat) (v : α) :
    (s.setElem i v).len = s.len := rfl

theorem len_le_set_getD (l : List (GoSlice (Option Nat))) (fi s : Nat)
    (V : GoSlice (Option Nat)) (hV : (l.getD fi .nilSlice).len ≤ V.len) :
    (l.getD s .nilSlice).len ≤ ((l.set fi V).getD s .nilSlice).len := by
  by_cases h : fi = s
  · subst h
    rw [getD_set_self]
    split
    · exact hV
    · rw [List.getD_eq_default]
      omega
  · rw [getD_set_ne _ _ _ _ _ h]

theorem endFenceGate_none (env : EndEnv) (nextIndex expected : Nat)
    (h : (endFenceGate env nextIndex expected).1 = none) :
    expected ≤ env.completedValue ∨ env.waitStatus = .signaled ∨
      env.waitStatus = .timedOut := by
  unfold endFenceGate at h
  by_cases hlt : env.completedValue < expected
  · rw [if_pos hlt] at h
    cases hse : env.setEventErr with
    | some e => rw [hse] at h; simp at h
    | none =>
      rw [hse] at h
      cases hw : env.waitStatus with
      | signaled => right; left; rfl
      | timedOut => right; right; rfl
      | failed => rw [hw] at h; simp [waitForSingleObject] at h
  · rw [if_neg hlt] at h
    left
    omega

theorem reclaimSlot_fields (g : GraphicsState) (n : Nat) :
    ((reclaimSlot g n).1.vertices.getD n .nilSlice).len = 0 ∧
    ((reclaimSlot g n).1.indices.getD n .nilSlice).len = 0 ∧
    (reclaimSlot g n).1.disposedImages.getD n [] = [] := by
  unfold reclaimSlot
  refine ⟨?_, ?_, ?_⟩ <;>
    simp only [] <;>
    rw [getD_set_self] <;>
    split <;>
    simp [GoSlice.trunc0, GoSlice.nilSlice, List.getD_eq_default]

theorem end_false_no_reclaim (g : GraphicsState) (env : EndEnv)
    (r : Option Failure) (g1 : GraphicsState) (ev : List Event)
    (h : Graphics.End g env false = (r, g1, ev)) :
    g1.vertices = g.vertices ∧ g1.indices = g.indices ∧
      g1.disposedImages = g.disposedImages ∧ g1.dev = g.dev := by
  unfold Graphics.End at h
  cases hsc : g.swapChain with
  | none =>
    rw [hsc] at h
    simp only [eq_self_iff_true, if_true] at h
    simp only [Prod.mk.injEq] at h
    obtain ⟨-, hg1, -⟩ := h
    subst hg1
    exact ⟨rfl, rfl, rfl, rfl⟩
  | some sc =>
    rw [hsc] at h
    simp only [eq_self_iff_true, if_true] at h
    cases hce : env.closeErr with
    | some e =>
      rw [hce] at h
      simp only [eq_self_iff_true, if_true] at h
      simp only [Bool.false_eq_true, if_false, Prod.mk.injEq] at h
      obtain ⟨-, hg1, -⟩ := h
      subst hg1
      exact ⟨rfl, rfl, rfl, rfl⟩
    | none =>
      rw [hce] at h
      simp only [eq_self_iff_true, if_true] at h
      simp only [Bool.false_eq_true, if_false, Prod.mk.injEq] at h
      obtain ⟨-, hg1, -⟩ := h
      subst hg1
      exact ⟨rfl, rfl, rfl, rfl⟩

theorem end_true_failure_no_reclaim (g : GraphicsState) (env : EndEnv)
    (f : Failure) (g1 : GraphicsState) (ev : List Event)
    (h : Graphics.End g env true = (some f, g1, ev)) :
    g1.vertices = g.vertices ∧ g1.indices = g.indices ∧
      g1.disposedImages = g.disposedImages ∧ g1.dev = g.dev := by
  unfold Graphics.End at h
  cases hsc : g.swapChain with
  | none =>
    rw [hsc] at h
    simp only [eq_self_iff_true, if_true] at h
    simp only [Prod.mk.injEq] at h
    obtain ⟨-, hg1, -⟩ := h
    subst hg1
    exact ⟨rfl, rfl, rfl, rfl⟩
  | some sc =>
    rw [hsc] at h
    simp only [eq_self_iff_true, if_true] at h
    cases hsi : g.screenImage with
    | none =>
      rw [hsi] at h
      simp only [eq_self_iff_true, if_true] at h
      simp only [if_true, Prod.mk.injEq] at h
      obtain ⟨-, hg1, -⟩ := h
      subst hg1
      exact ⟨rfl, rfl, rfl, rfl⟩
    | some sid =>
      rw [hsi] at h
      simp only [eq_self_iff_true, if_true] at h
      cases hfi : findImage g.images sid with
      | none =>
        rw [hfi] at h
        simp only [eq_self_iff_true, if_true] at h
        simp only [if_true, Prod.mk.injEq] at h
        obtain ⟨-, hg1, -⟩ := h
        subst hg1
        exact ⟨rfl, rfl, rfl, rfl⟩
      | some img =>
        rw [hfi] at h
        simp only [eq_self_iff_true, if_true] at h
        cases hce : env.closeErr with
        | some e =>
          rw [hce] at h
          simp only [eq_self_iff_true, if_true] at h
          simp only [if_true, Prod.mk.injEq] at h
          obtain ⟨-, hg1, -⟩ := h
          subst hg1
          exact ⟨rfl, rfl, rfl, rfl⟩
        | none =>
          rw [hce] at h
          simp only [eq_self_iff_true, if_true] at h
          cases hpe : env.presentErr with
          | some e =>
            rw [hpe] at h
            simp only [eq_self_iff_true, if_true] at h
            simp only [if_true, Prod.mk.injEq] at h
            obtain ⟨-, hg1, -⟩ := h
            subst hg1
            exact ⟨rfl, rfl, rfl, rfl⟩
          | none =>
            rw [hpe] at h
            simp only [eq_self_iff_true, if_true] at h
            cases hse : env.signalErr with
            | some e =>
              rw [hse] at h
              simp only [eq_self_iff_true, if_true] at h
              simp only [if_true, Prod.mk.injEq] at h
              obtain ⟨-, hg1, -⟩ := h
              subst hg1
              exact ⟨rfl, rfl, rfl, rfl⟩
            | none =>
              rw [hse] at h
              simp only [eq_self_iff_true, if_true] at h
              split at h
              · simp only [Prod.mk.injEq] at h
                obtain ⟨-, hg1, -⟩ := h
                subst hg1
                exact ⟨rfl, rfl, rfl, rfl⟩
              · simp at h

theorem end_true_success_reclaim (g : GraphicsState) (env : EndEnv)
    (g1 : GraphicsState) (ev : List Event)
    (h : Graphics.End g env true = (none, g1, ev)) :
    ((g1.vertices.getD ((g.frameIndex + 1) % frameCount) .nilSlice).len = 0 ∧
     (g1.indices.getD ((g.frameIndex + 1) % frameCount) .nilSlice).len = 0 ∧
     g1.disposedImages.getD ((g.frameIndex + 1) % frameCount) [] = []) ∧
    (g.fenceValues.getD ((g.frameIndex + 1) % frameCount) 0 ≤ env.completedValue ∨
     env.waitStatus = .signaled ∨ env.waitStatus = .timedOut) := by
  unfold Graphics.End at h
  cases hsc : g.swapChain with
  | none => rw [hsc] at h; simp at h
  | some sc =>
    rw [hsc] at h
    simp only [eq_self_iff_true, if_true] at h
    cases hsi : g.screenImage with
    | none => rw [hsi] at h; simp at h
    | some sid =>
      rw [hsi] at h
      simp only [eq_self_iff_true, if_true] at h
      cases hfi : findImage g.images sid with
      | none => rw [hfi] at h; simp at h
      | some img =>
        rw [hfi] at h
        simp only [eq_self_iff_true, if_true] at h
        cases hce : env.closeErr with
        | some e => rw [hce] at h; simp at h
        | none =>
          rw [hce] at h
          simp only [eq_self_iff_true, if_true] at h
          cases hpe : env.presentErr with
          | some e => rw [hpe] at h; simp at h
          | none =>
            rw [hpe] at h
            simp only [eq_self_iff_true, if_true] at h
            cases hse : env.signalErr with
            | some e => rw [hse] at h; simp at h
            | none =>
              rw [hse] at h
              simp only [eq_self_iff_true, if_true] at h
              split at h
              · simp at h
              · rename_i o evw heq
                simp only [Prod.mk.injEq] at h
                obtain ⟨-, hg1, -⟩ := h
                constructor
                · rw [← hg1]
                  exact reclaimSlot_fields _ _
                · have h1 := congrArg Prod.fst heq
                  have h2 := endFenceGate_none _ _ _ h1
                  rcases h2 with h2 | h2 | h2
                  · left
                    rw [getD_set_ne _ _ _ _ _ (frameIndex_ne_next _)] at h2
                    exact h2
                  · right; left; exact h2
                  · right; right; exact h2

theorem begin_no_reclaim (g : GraphicsState) (env : BeginEnv) :
    (Graphics.Begin g env).2.1.vertices = g.vertices ∧
    (Graphics.Begin g env).2.1.indices = g.indices ∧
    (Graphics.Begin g env).2.1.disposedImages = g.disposedImages ∧
    (Graphics.Begin g env).2.1.dev = g.dev := by
  cases hsc : g.swapChain <;>
    cases hae : env.allocatorResetErr <;>
      cases hle : env.listResetErr <;>
        simp [Graphics.Begin, hsc, hae, hle]

theorem getD_set_setElem_len (l : List (GoSlice (Option Nat))) (fi s i : Nat)
    (v : Option Nat) :
    ((l.set fi ((l.getD fi .nilSlice).setElem i v)).getD s .nilSlice).len =
      (l.getD s .nilSlice).len := by
  by_cases h : fi = s
  · subst h
    rw [getD_set_self]
    split
    · rfl
    · next h2 =>
      rw [List.getD_eq_default _ _ (Nat.le_of_not_lt h2)]
  · rw [getD_set_ne _ _ _ _ _ h]

theorem setVerticesCleanup_len (g : GraphicsState) (fi vidx iidx : Nat)
    (cv ci : Bool) (vb ib : Nat) (s : Nat) :
    ((setVerticesCleanup g fi vidx iidx cv ci vb ib).1.vertices.getD s .nilSlice).len =
      (g.vertices.getD s .nilSlice).len ∧
    ((setVerticesCleanup g fi vidx iidx cv ci vb ib).1.indices.getD s .nilSlice).len =
      (g.indices.getD s .nilSlice).len ∧
    (setVerticesCleanup g fi vidx iidx cv ci vb ib).1.disposedImages = g.disposedImages := by
  cases ci <;> cases cv <;>
    refine ⟨?_, ?_, ?_⟩ <;>
      first
        | rfl
        | exact getD_set_setElem_len _ _ _ _ _

theorem setVerticesTail_len (g : GraphicsState) (env : SetVerticesEnv)
    (fi vidx iidx : Nat) (cv ci : Bool) (vb ib : Nat) (evs : List Event) (s : Nat) :
    (((setVerticesTail g env fi vidx iidx cv ci vb ib evs).2.1.vertices.getD s .nilSlice).len =
      (g.vertices.getD s .nilSlice).len) ∧
    (((setVerticesTail g env fi vidx iidx cv ci vb ib evs).2.1.indices.getD s .nilSlice).len =
      (g.indices.getD s .nilSlice).len) ∧
    (setVerticesTail g env fi vidx iidx cv ci vb ib evs).2.1.disposedImages =
      g.disposedImages := by
  unfold setVerticesTail
  cases h1 : env.mapVErr <;> cases h2 : env.unmapVErr <;>
    cases h3 : env.mapIErr <;> cases h4 : env.unmapIErr <;>
      first
        | exact ⟨(setVerticesCleanup_len g fi vidx iidx cv ci vb ib s).1,
                 (setVerticesCleanup_len g fi vidx iidx cv ci vb ib s).2.1,
                 (setVerticesCleanup_len g fi vidx iidx cv ci vb ib s).2.2⟩
        | exact ⟨rfl, rfl, rfl⟩

theorem extendReuse_le (s : GoSlice (Option Nat)) : s.len ≤ s.extendReuse.len := by
  rw [extendReuse_len]
  exact Nat.le_succ _

theorem len_le_set_extendReuse (l : List (GoSlice (Option Nat))) (fi s : Nat) :
    (l.getD s .nilSlice).len ≤
      ((l.set fi ((l.getD fi .nilSlice).extendReuse)).getD s .nilSlice).len :=
  len_le_set_getD l fi s _ (extendReuse_le _)

theorem len_le_set2_setElem (l : List (GoSlice (Option Nat))) (fi s vidx : Nat)
    (v : Option Nat) (A : GoSlice (Option Nat)) (hA : (l.getD fi .nilSlice).len ≤ A.len) :
    (l.getD s .nilSlice).len ≤
      (((l.set fi A).set fi (((l.set fi A).getD fi .nilSlice).setElem vidx v)).getD s .nilSlice).len := by
  by_cases h : fi = s
  · subst h
    rw [List.set_set, getD_set_self]
    split
    · next h2 =>
      rw [setElem_len, getD_set_self, if_pos h2]
      exact hA
    · next h2 => rw [List.getD_eq_default _ _ (Nat.le_of_not_lt h2)]
  · rw [getD_set_ne _ _ _ _ _ h, getD_set_ne _ _ _ _ _ h]

theorem tail_chain (g g4 : GraphicsState) (env : SetVerticesEnv)
    (fi vidx iidx : Nat) (cv ci : Bool) (vb ib : Nat) (evs : List Event) (s : Nat)
    (hv : (g.vertices.getD s .nilSlice).len ≤ (g4.vertices.getD s .nilSlice).len)
    (hi : (g.indices.getD s .nilSlice).len ≤ (g4.indices.getD s .nilSlice).len)
    (hd : g4.disposedImages = g.disposedImages) :
    (g.vertices.getD s .nilSlice).len ≤
      ((setVerticesTail g4 env fi vidx iidx cv ci vb ib evs).2.1.vertices.getD s .nilSlice).len ∧
    (g.indices.getD s .nilSlice).len ≤
      ((setVerticesTail g4 env fi vidx iidx cv ci vb ib evs).2.1.indices.getD s .nilSlice).len ∧
    (setVerticesTail g4 env fi vidx iidx cv ci vb ib evs).2.1.disposedImages =
      g.disposedImages := by
  obtain ⟨h1, h2, h3⟩ := setVerticesTail_len g4 env fi vidx iidx cv ci vb ib evs s
  exact ⟨by rw [h1]; exact hv, by rw [h2]; exact hi, h3.trans hd⟩

theorem cleanup_chain (g g4 : GraphicsState)
    (fi vidx iidx : Nat) (cv ci : Bool) (vb ib : Nat) (s : Nat)
    (hv : (g.vertices.getD s .nilSlice).len ≤ (g4.vertices.getD s .nilSlice).len)
    (hi : (g.indices.getD s .nilSlice).len ≤ (g4.indices.getD s .nilSlice).len)
    (hd : g4.disposedImages = g.disposedImages) :
    (g.vertices.getD s .nilSlice).len ≤
      ((setVerticesCleanup g4 fi vidx iidx cv ci vb ib).1.vertices.getD s .nilSlice).len ∧
    (g.indices.getD s .nilSlice).len ≤
      ((setVerticesCleanup g4 fi vidx iidx cv ci vb ib).1.indices.getD s .nilSlice).len ∧
    (setVerticesCleanup g4 fi vidx iidx cv ci vb ib).1.disposedImages =
      g.disposedImages := by
  obtain ⟨h1, h2, h3⟩ := setVerticesCleanup_len g4 fi vidx iidx cv ci vb ib s
  exact ⟨by rw [h1]; exact hv, by rw [h2]; exact hi, h3.trans hd⟩

theorem setVerticesGrow_le (dev : DeviceState) (l : List (GoSlice (Option Nat)))
    (fi : Nat) (ce : Option String) (s : Nat) :
    (l.getD s .nilSlice).len ≤
      ((setVerticesGrow dev l fi ce).2.2.1.getD s .nilSlice).len := by
  unfold setVerticesGrow
  simp only []
  split
  · split
    · exact len_le_set_extendReuse _ _ _
    · exact len_le_set2_setElem _ _ _ _ _ _ (extendReuse_le _)
  · exact len_le_set_extendReuse _ _ _

set_option maxHeartbeats 1600000 in

theorem setVertices_no_reclaim (g : GraphicsState) (env : SetVerticesEnv) (s : Nat) :
    (g.vertices.getD s .nilSlice).len ≤
      ((Graphics.SetVertices g env).2.1.vertices.getD s .nilSlice).len ∧
    (g.indices.getD s .nilSlice).len ≤
      ((Graphics.SetVertices g env).2.1.indices.getD s .nilSlice).len ∧
    (Graphics.SetVertices g env).2.1.disposedImages = g.disposedImages := by
  have hvle := setVerticesGrow_le g.dev g.vertices g.frameIndex env.createVertexBufferErr s
  unfold Graphics.SetVertices
  simp only []
  rcases hv : setVerticesGrow g.dev g.vertices g.frameIndex env.createVertexBufferErr with
    ⟨o, dev1, l1, cv, vb, ev⟩
  rw [hv] at hvle
  cases o with
  | some f => exact ⟨hvle, le_refl _, rfl⟩
  | none =>
    simp only []
    have hile := setVerticesGrow_le dev1 g.indices g.frameIndex env.createIndexBufferErr s
    rcases hi : setVerticesGrow dev1 g.indices g.frameIndex env.createIndexBufferErr with
      ⟨o2, dev2, l2, ci, ib, ev2⟩
    rw [hi] at hile
    cases o2 with
    | some f =>
      refine cleanup_chain g ({ g with dev := dev2, vertices := l1, indices := l2 })
        g.frameIndex (g.vertices.getD g.frameIndex .nilSlice).len
        (g.indices.getD g.frameIndex .nilSlice).len cv false vb 0 s ?_ ?_ rfl
      · exact hvle
      · exact hile
    | none =>
      refine tail_chain g ({ g with dev := dev2, vertices := l1, indices := l2 }) env
        g.frameIndex (g.vertices.getD g.frameIndex .nilSlice).len
        (g.indices.getD g.frameIndex .nilSlice).len cv ci vb ib (ev ++ ev2) s ?_ ?_ rfl
      · exact hvle
      · exact hile

theorem setAsRenderTarget_fields (g : GraphicsState) (imgId : Nat) (i : ImageState)
    (e : Option String) :
    (Image.setAsRenderTarget g imgId i e).2.1.vertices = g.vertices ∧
    (Image.setAsRenderTarget g imgId i e).2.1.indices = g.indices ∧
    (Image.setAsRenderTarget g imgId i e).2.1.disposedImages = g.disposedImages ∧
    (Image.setAsRenderTarget g imgId i e).2.1.frameIndex = g.frameIndex ∧
    (Image.setAsRenderTarget g imgId i e).2.1.ps = g.ps := by
  unfold Image.setAsRenderTarget
  simp only []
  repeat' split
  all_goals exact ⟨rfl, rfl, rfl, rfl, rfl⟩

theorem drawTriangles_transient_eq (g : GraphicsState) (env : DrawEnv)
    (dstID src0 : Nat) (sh : Option Nat) (il io : Nat) (mode : CompositeMode)
    (rx ry rw2 rh : Nat) :
    (Graphics.DrawTriangles g env dstID src0 sh il io mode rx ry rw2 rh).2.1.vertices = g.vertices ∧
    (Graphics.DrawTriangles g env dstID src0 sh il io mode rx ry rw2 rh).2.1.indices = g.indices ∧
    (Graphics.DrawTriangles g env dstID src0 sh il io mode rx ry rw2 rh).2.1.disposedImages = g.disposedImages ∧
    (Graphics.DrawTriangles g env dstID src0 sh il io mode rx ry rw2 rh).2.1.frameIndex = g.frameIndex := by
  unfold Graphics.DrawTriangles
  cases sh with
  | some s2 => exact ⟨rfl, rfl, rfl, rfl⟩
  | none =>
    try simp only []
    cases hD : findImage g.images dstID with
    | none => exact ⟨rfl, rfl, rfl, rfl⟩
    | some dst =>
      try simp only []
      split
      · rename_i heq
        have hf := setAsRenderTarget_fields g dstID dst env.createRTVHeapErr
        rw [heq] at hf
        exact ⟨hf.1, hf.2.1, hf.2.2.1, hf.2.2.2.1⟩
      · rename_i heq
        have hf := setAsRenderTarget_fields g dstID dst env.createRTVHeapErr
        rw [heq] at hf
        obtain ⟨hv, hi2, hd, hfi, -⟩ := hf
        rename_i g1 ev1
        cases hF : findImage g1.images src0 with
        | none => exact ⟨hv, hi2, hd, hfi⟩
        | some src =>
          try simp only []
          split
          · exact ⟨hv, hi2, hd, hfi⟩
          · try simp only []
            split
            · exact ⟨hv, hi2, hd, hfi⟩
            · split
              · exact ⟨hv, hi2, hd, hfi⟩
              · exact ⟨hv, hi2, hd, hfi⟩

theorem prefix_getD_set_append (l : List (List ImageState)) (fi s : Nat)
    (x : ImageState) :
    (l.getD s []) <+: ((l.set fi ((l.getD fi []) ++ [x])).getD s []) := by
  by_cases h : fi = s
  · subst h
    rw [getD_set_self]
    split
    · exact List.prefix_append _ _
    · next h2 =>
      rw [List.getD_eq_default _ _ (Nat.le_of_not_lt h2)]
  · rw [getD_set_ne _ _ _ _ _ h]

theorem dispose_no_reclaim (g : GraphicsState) (imgId : Nat) (s : Nat) :
    (Image.Dispose g imgId).vertices = g.vertices ∧
    (Image.Dispose g imgId).indices = g.indices ∧
    (Image.Dispose g imgId).dev = g.dev ∧
    (g.disposedImages.getD s []) <+: ((Image.Dispose g imgId).disposedImages.getD s []) := by
  unfold Image.Dispose Graphics.removeImage
  cases hf : findImage g.images imgId with
  | none => exact ⟨rfl, rfl, rfl, List.prefix_refl _⟩
  | some img =>
    simp only []
    split
    · exact ⟨rfl, rfl, rfl, prefix_getD_set_append _ _ _ _⟩
    · exact ⟨rfl, rfl, rfl, prefix_getD_set_append _ _ _ _⟩

theorem extendReuse_len_lt (s : GoSlice (Option Nat)) (hcap : s.len ≤ s.cap) :
    s.len < s.extendReuse.arr.length := by
  unfold GoSlice.extendReuse GoSlice.cap at *
  split
  · next h2 => exact h2
  · simp only [List.length_append, List.length_cons, List.length_nil]
    omega

theorem setVerticesGrow_success_last (dev : DeviceState)
    (l : List (GoSlice (Option Nat))) (fi : Nat) (ce : Option String)
    (dev1 : DeviceState) (l1 : List (GoSlice (Option Nat))) (cr : Bool)
    (b : Nat) (ev : List Event)
    (hfi : fi < l.length)
    (hcap : (l.getD fi .nilSlice).len ≤ (l.getD fi .nilSlice).cap)
    (h : setVerticesGrow dev l fi ce = (none, dev1, l1, cr, b, ev)) :
    (l1.getD fi .nilSlice).len = (l.getD fi .nilSlice).len + 1 ∧
    (l1.getD fi .nilSlice).getElem0 ((l.getD fi .nilSlice).len) = some b := by
  unfold setVerticesGrow at h
  simp only [] at h
  cases hg : ((l.getD fi .nilSlice).extendReuse).getElem0 ((l.getD fi .nilSlice).len) with
  | some b0 =>
    rw [hg] at h
    simp only [Prod.mk.injEq] at h
    obtain ⟨-, -, hl1, -, hb, -⟩ := h
    subst hl1
    subst hb
    rw [getD_set_self, if_pos hfi]
    exact ⟨extendReuse_len _, hg⟩
  | none =>
    rw [hg] at h
    cases hce : ce with
    | some e => rw [hce] at h; simp at h
    | none =>
      rw [hce] at h
      simp only [Prod.mk.injEq] at h
      obtain ⟨-, -, hl1, -, hb, -⟩ := h
      subst hl1
      subst hb
      constructor
      · rw [List.set_set, getD_set_self, if_pos hfi, setElem_len,
          getD_set_self, if_pos hfi]
        exact extendReuse_len _
      · simp only [List.set_set, getD_set_self, hfi, if_true,
          GoSlice.setElem, GoSlice.getElem0]
        rw [if_pos (extendReuse_len_lt _ hcap)]

theorem setVerticesTail_success (g : GraphicsState) (env : SetVerticesEnv)
    (fi vidx iidx : Nat) (cV cI : Bool) (vbuf ibuf : Nat) (evs : List Event)
    (g1 : GraphicsState) (ev : List Event)
    (h : setVerticesTail g env fi vidx iidx cV cI vbuf ibuf evs = (none, g1, ev)) :
    g1 = g ∧ ev = (evs ++ [.mapWrite vbuf]) ++ [.mapWrite ibuf] := by
  unfold setVerticesTail at h
  cases h1 : env.mapVErr with
  | some e => rw [h1] at h; simp at h
  | none =>
    rw [h1] at h
    simp only [] at h
    cases h2 : env.unmapVErr with
    | some e => rw [h2] at h; simp at h
    | none =>
      rw [h2] at h
      cases h3 : env.mapIErr with
      | some e => rw [h3] at h; simp at h
      | none =>
        rw [h3] at h
        simp only [] at h
        cases h4 : env.unmapIErr with
        | some e => rw [h4] at h; simp at h
        | none =>
          rw [h4] at h
          simp only [Prod.mk.injEq] at h
          exact ⟨h.2.1.symm, h.2.2.symm⟩

theorem setVertices_success_last (g : GraphicsState) (env : SetVerticesEnv)
    (g1 : GraphicsState) (ev : List Event)
    (hfv : g.frameIndex < g.vertices.length)
    (hfid : g.frameIndex < g.indices.length)
    (hcv : (g.vertices.getD g.frameIndex .nilSlice).len ≤
      (g.vertices.getD g.frameIndex .nilSlice).cap)
    (hci : (g.indices.getD g.frameIndex .nilSlice).len ≤
      (g.indices.getD g.frameIndex .nilSlice).cap)
    (h : Graphics.SetVertices g env = (none, g1, ev)) :
    ∃ vbuf ibuf,
      (g1.vertices.getD g.frameIndex .nilSlice).len =
        (g.vertices.getD g.frameIndex .nilSlice).len + 1 ∧
      (g1.vertices.getD g.frameIndex .nilSlice).getElem0
        ((g.vertices.getD g.frameIndex .nilSlice).len) = some vbuf ∧
      (g1.indices.getD g.frameIndex .nilSlice).len =
        (g.indices.getD g.frameIndex .nilSlice).len + 1 ∧
      (g1.indices.getD g.frameIndex .nilSlice).getElem0
        ((g.indices.getD g.frameIndex .nilSlice).len) = some ibuf ∧
      Event.mapWrite vbuf ∈ ev ∧ Event.mapWrite ibuf ∈ ev := by
  unfold Graphics.SetVertices at h
  simp only [] at h
  rcases hv : setVerticesGrow g.dev g.vertices g.frameIndex env.createVertexBufferErr with
    ⟨o, dev1, l1, cv, vb, ev1⟩
  rw [hv] at h
  cases o with
  | some f => simp at h
  | none =>
    simp only [] at h
    rcases hi : setVerticesGrow dev1 g.indices g.frameIndex env.createIndexBufferErr with
      ⟨o2, dev2, l2, ci, ib, ev2⟩
    rw [hi] at h
    cases o2 with
    | some f => simp at h
    | none =>
      simp only [] at h
      obtain ⟨hg1, hev⟩ := setVerticesTail_success _ _ _ _ _ _ _ _ _ _ _ _ h
      subst hg1
      subst hev
      obtain ⟨hlv, hgv⟩ := setVerticesGrow_success_last g.dev g.vertices g.frameIndex
        env.createVertexBufferErr dev1 l1 cv vb ev1 hfv hcv hv
      obtain ⟨hli, hgi⟩ := setVerticesGrow_success_last dev1 g.indices g.frameIndex
        env.createIndexBufferErr dev2 l2 ci ib ev2 hfid hci hi
      exact ⟨vb, ib, hlv, hgv, hli, hgi, by simp, by simp⟩

theorem drawTriangles_success_binds_last (g : GraphicsState) (env : DrawEnv)
    (dstID src0 : Nat) (sh : Option Nat) (il io : Nat) (mode : CompositeMode)
    (rx ry rw2 rh : Nat) (g1 : GraphicsState) (ev : List Event)
    (h : Graphics.DrawTriangles g env dstID src0 sh il io mode rx ry rw2 rh =
      (none, g1, ev)) :
    (g.vertices.getD g.frameIndex .nilSlice).len ≠ 0 ∧
    (g.indices.getD g.frameIndex .nilSlice).len ≠ 0 ∧
    Event.setVertexBuffer (((g.vertices.getD g.frameIndex .nilSlice).getElem0
        ((g.vertices.getD g.frameIndex .nilSlice).len - 1)).getD 0) ∈ ev ∧
    Event.setIndexBuffer (((g.indices.getD g.frameIndex .nilSlice).getElem0
        ((g.indices.getD g.frameIndex .nilSlice).len - 1)).getD 0) ∈ ev := by
  unfold Graphics.DrawTriangles at h
  cases sh with
  | some s2 => simp at h
  | none =>
    simp only [] at h
    cases hD : findImage g.images dstID with
    | none => rw [hD] at h; simp at h
    | some dst =>
      rw [hD] at h
      simp only [] at h
      rcases hA : Image.setAsRenderTarget g dstID dst env.createRTVHeapErr with ⟨oA, gA, evA⟩
      rw [hA] at h
      have hf := setAsRenderTarget_fields g dstID dst env.createRTVHeapErr
      rw [hA] at hf
      obtain ⟨hfv, hfi2, -, hffi, -⟩ := hf
      cases oA with
      | some f => simp at h
      | none =>
        simp only [] at h
        cases hS : findImage gA.images src0 with
        | none => rw [hS] at h; simp at h
        | some src =>
          rw [hS] at h
          simp only [] at h
          split at h
          · simp at h
          · rw [hfv, hfi2, hffi] at h
            split at h
            · simp at h
            · rename_i hvne
              split at h
              · simp at h
              · rename_i hine
                simp only [Prod.mk.injEq] at h
                obtain ⟨-, -, hev⟩ := h
                subst hev
                refine ⟨hvne, hine, ?_, ?_⟩ <;> simp

/-- C1 (amended): a frame slot's transient vertex/index buffer lists are
truncated and its queued image disposals executed only by `End(present=true)`
after the fence gate on the other slot, and nowhere else: `End(present=false)`
and every failing `End` leave the lists, queues and device objects untouched,
`Begin` leaves them untouched, `SetVertices` only grows the lists and keeps
the queues, `DrawTriangles` leaves lists, queues and frame index untouched,
and `Image.Dispose` only appends to a queue.  The fence gate, however, lets
the reclamation proceed not only when the completed fence value has reached
the slot's last signaled value or the bounded wait was signaled, but also
when the wait returned WAIT_TIMEOUT, because the `x/sys/windows` wrapper
returns a nil error for WAIT_TIMEOUT and `End` discards the event value, so
reclamation is NOT conditional on confirmed GPU completion. -/
theorem C1_reclaim_only_in_end :
    (∀ (g : GraphicsState) (env : EndEnv) (r : Option Failure)
       (g1 : GraphicsState) (ev : List Event),
       Graphics.End g env false = (r, g1, ev) →
       g1.vertices = g.vertices ∧ g1.indices = g.indices ∧
         g1.disposedImages = g.disposedImages ∧ g1.dev = g.dev) ∧
    (∀ (g : GraphicsState) (env : EndEnv) (f : Failure)
       (g1 : GraphicsState) (ev : List Event),
       Graphics.End g env true = (some f, g1, ev) →
       g1.vertices = g.vertices ∧ g1.indices = g.indices ∧
         g1.disposedImages = g.disposedImages ∧ g1.dev = g.dev) ∧
    (∀ (g : GraphicsState) (env : EndEnv) (g1 : GraphicsState) (ev : List Event),
       Graphics.End g env true = (none, g1, ev) →
       ((g1.vertices.getD ((g.frameIndex + 1) % frameCount) .nilSlice).len = 0 ∧
        (g1.indices.getD ((g.frameIndex + 1) % frameCount) .nilSlice).len = 0 ∧
        g1.disposedImages.getD ((g.frameIndex + 1) % frameCount) [] = []) ∧
       (g.fenceValues.getD ((g.frameIndex + 1) % frameCount) 0 ≤ env.completedValue ∨
        env.waitStatus = .signaled ∨ env.waitStatus = .timedOut)) ∧
    (∀ (g : GraphicsState) (env : BeginEnv),
       (Graphics.Begin g env).2.1.vertices = g.vertices ∧
       (Graphics.Begin g env).2.1.indices = g.indices ∧
       (Graphics.Begin g env).2.1.disposedImages = g.disposedImages ∧
       (Graphics.Begin g env).2.1.dev = g.dev) ∧
    (∀ (g : GraphicsState) (env : SetVerticesEnv) (s : Nat),
       (g.vertices.getD s .nilSlice).len ≤
         ((Graphics.SetVertices g env).2.1.vertices.getD s .nilSlice).len ∧
       (g.indices.getD s .nilSlice).len ≤
         ((Graphics.SetVertices g env).2.1.indices.getD s .nilSlice).len ∧
       (Graphics.SetVertices g env).2.1.disposedImages = g.disposedImages) ∧
    (∀ (g : GraphicsState) (env : DrawEnv) (dstID src0 : Nat) (sh : Option Nat)
       (il io : Nat) (mode : CompositeMode) (rx ry rw2 rh : Nat),
       (Graphics.DrawTriangles g env dstID src0 sh il io mode rx ry rw2 rh).2.1.vertices = g.vertices ∧
       (Graphics.DrawTriangles g env dstID src0 sh il io mode rx ry rw2 rh).2.1.indices = g.indices ∧
       (Graphics.DrawTriangles g env dstID src0 sh il io mode rx ry rw2 rh).2.1.disposedImages = g.disposedImages ∧
       (Graphics.DrawTriangles g env dstID src0 sh il io mode rx ry rw2 rh).2.1.frameIndex = g.frameIndex) ∧
    (∀ (g : GraphicsState) (imgId : Nat) (s : Nat),
       (Image.Dispose g imgId).vertices = g.vertices ∧
       (Image.Dispose g imgId).indices = g.indices ∧
       (Image.Dispose g imgId).dev = g.dev ∧
       (g.disposedImages.getD s []) <+: ((Image.Dispose g imgId).disposedImages.getD s [])) :=
  ⟨end_false_no_reclaim, end_true_failure_no_reclaim, end_true_success_reclaim,
   begin_no_reclaim, setVertices_no_reclaim, drawTriangles_transient_eq,
   dispose_no_reclaim⟩

/-- C1 counterexample to the unamended claim: on `c1g` the other slot's fence
completed value (4) is below its last signaled value (9) and the bounded wait
timed out — GPU completion was NOT confirmed — yet `End(present=true)`
succeeds and reclaims slot 0, truncating its transient buffer lists, draining
its disposal queue and releasing the queued texture 11. -/
theorem C1_reclaim_despite_unconfirmed_fence :
    c1env.completedValue < c1g.fenceValues.getD ((c1g.frameIndex + 1) % frameCount) 0 ∧
    c1env.waitStatus = WaitStatus.timedOut ∧
    waitForSingleObject WaitStatus.timedOut = (258, none) ∧
    Graphics.End c1g c1env true = (none, c1gAfter, c1ev) ∧
    (c1gAfter.vertices.getD 0 .nilSlice).len = 0 ∧
    (c1gAfter.indices.getD 0 .nilSlice).len = 0 ∧
    c1gAfter.disposedImages.getD 0 [] = [] ∧
    Event.releaseObj 11 ∈ c1ev ∧
    11 ∈ c1g.dev.live ∧ 11 ∉ c1gAfter.dev.live := by
  set_option maxRecDepth 4000 in decide

/-- Witness: the reclamation conjunct of `C1_reclaim_only_in_end` applied to
the concrete successful `End` on `c1g`. -/
theorem C1_reclaim_only_in_end_witness :
    (((c1gAfter.vertices.getD ((c1g.frameIndex + 1) % frameCount) .nilSlice).len = 0 ∧
      (c1gAfter.indices.getD ((c1g.frameIndex + 1) % frameCount) .nilSlice).len = 0 ∧
      c1gAfter.disposedImages.getD ((c1g.frameIndex + 1) % frameCount) [] = []) ∧
     (c1g.fenceValues.getD ((c1g.frameIndex + 1) % frameCount) 0 ≤ c1env.completedValue ∨
      c1env.waitStatus = .signaled ∨ c1env.waitStatus = .timedOut)) :=
  C1_reclaim_only_in_end.2.2.1 c1g c1env c1gAfter c1ev (by decide)

/-- C4: the bounded fence wait's timeout is NOT surfaced as a fatal error.
The `x/sys/windows` wrapper returns WAIT_TIMEOUT (0x102 = 258) through the
event value with a nil Go error, and `End` discards the event value and
checks only the error, so on `c4g` — where the other slot's completed fence
value (3) is below its expected value (5), `SetEventOnCompletion` succeeds
and the 10-second wait times out — `End(present=true)` returns nil and
proceeds to reclaim slot 1 (truncating its buffer lists and releasing the
queued texture 7) instead of returning a synchronization error. -/
theorem C4_wait_timeout_not_fatal :
    c4env.completedValue < c4g.fenceValues.getD ((c4g.frameIndex + 1) % frameCount) 0 ∧
    c4env.setEventErr = none ∧
    c4env.waitStatus = WaitStatus.timedOut ∧
    waitForSingleObject WaitStatus.timedOut = (258, none) ∧
    (Graphics.End c4g c4env true).1 = none ∧
    Event.waitFence 1 5 ∈ (Graphics.End c4g c4env true).2.2 ∧
    ((Graphics.End c4g c4env true).2.1.vertices.getD 1 .nilSlice).len = 0 ∧
    ((Graphics.End c4g c4env true).2.1.indices.getD 1 .nilSlice).len = 0 ∧
    Event.releaseObj 7 ∈ (Graphics.End c4g c4env true).2.2 ∧
    7 ∈ c4g.dev.live ∧ 7 ∉ (Graphics.End c4g c4env true).2.1.dev.live := by
  set_option maxRecDepth 4000 in decide

/-- C10: `DrawTriangles` binds the buffers produced by the most recent
`SetVertices` in the current frame slot, and requires at least one prior
successful `SetVertices` there.  (i) Any successful `DrawTriangles` finds
both of the slot's buffer lists nonempty and records `setVertexBuffer` and
`setIndexBuffer` naming the lists' LAST entries.  (ii) A successful
`SetVertices` grows both of the slot's lists by one and leaves the buffers
it wrote (`mapWrite` targets) as the new last entries.  (iii) With no prior
`SetVertices` in the slot the length-minus-one indexing is out of range: on
the concrete state `c10g`, which passes every earlier stage of the call,
`DrawTriangles` panics with Go's index-out-of-range error. -/
theorem C10_draw_binds_most_recent_setVertices :
    (∀ (g : GraphicsState) (env : DrawEnv) (dstID src0 : Nat) (sh : Option Nat)
       (il io : Nat) (mode : CompositeMode) (rx ry rw2 rh : Nat)
       (g1 : GraphicsState) (ev : List Event),
       Graphics.DrawTriangles g env dstID src0 sh il io mode rx ry rw2 rh =
         (none, g1, ev) →
       (g.vertices.getD g.frameIndex .nilSlice).len ≠ 0 ∧
       (g.indices.getD g.frameIndex .nilSlice).len ≠ 0 ∧
       Event.setVertexBuffer (((g.vertices.getD g.frameIndex .nilSlice).getElem0
           ((g.vertices.getD g.frameIndex .nilSlice).len - 1)).getD 0) ∈ ev ∧
       Event.setIndexBuffer (((g.indices.getD g.frameIndex .nilSlice).getElem0
           ((g.indices.getD g.frameIndex .nilSlice).len - 1)).getD 0) ∈ ev) ∧
    (∀ (g : GraphicsState) (env : SetVerticesEnv) (g1 : GraphicsState)
       (ev : List Event),
       g.frameIndex < g.vertices.length →
       g.frameIndex < g.indices.length →
       (g.vertices.getD g.frameIndex .nilSlice).len ≤
         (g.vertices.getD g.frameIndex .nilSlice).cap →
       (g.indices.getD g.frameIndex .nilSlice).len ≤
         (g.indices.getD g.frameIndex .nilSlice).cap →
       Graphics.SetVertices g env = (none, g1, ev) →
       ∃ vbuf ibuf,
         (g1.vertices.getD g.frameIndex .nilSlice).len =
           (g.vertices.getD g.frameIndex .nilSlice).len + 1 ∧
         (g1.vertices.getD g.frameIndex .nilSlice).getElem0
           ((g.vertices.getD g.frameIndex .nilSlice).len) = some vbuf ∧
         (g1.indices.getD g.frameIndex .nilSlice).len =
           (g.indices.getD g.frameIndex .nilSlice).len + 1 ∧
         (g1.indices.getD g.frameIndex .nilSlice).getElem0
           ((g.indices.getD g.frameIndex .nilSlice).len) = some ibuf ∧
         Event.mapWrite vbuf ∈ ev ∧ Event.mapWrite ibuf ∈ ev) ∧
    (Graphics.DrawTriangles c10g noDrawErr 1 2 none 6 0 c10mode 0 0 32 32).1 =
      some (.panicked "runtime error: index out of range [-1]") := by
  refine ⟨?_, ?_, ?_⟩
  · intro g env dstID src0 sh il io mode rx ry rw2 rh g1 ev h
    exact drawTriangles_success_binds_last g env dstID src0 sh il io mode
      rx ry rw2 rh g1 ev h
  · intro g env g1 ev h1 h2 h3 h4 h
    exact setVertices_success_last g env g1 ev h1 h2 h3 h4 h
  · set_option maxRecDepth 4000 in decide

/-- Witness: the `SetVertices` conjunct of
`C10_draw_binds_most_recent_setVertices` applied to the concrete successful
call on `c10sg`. -/
theorem C10_draw_binds_most_recent_setVertices_witness :
    ∃ vbuf ibuf,
      (c10sgAfter.vertices.getD c10sg.frameIndex .nilSlice).len =
        (c10sg.vertices.getD c10sg.frameIndex .nilSlice).len + 1 ∧
      (c10sgAfter.vertices.getD c10sg.frameIndex .nilSlice).getElem0
        ((c10sg.vertices.getD c10sg.frameIndex .nilSlice).len) = some vbuf ∧
      (c10sgAfter.indices.getD c10sg.frameIndex .nilSlice).len =
        (c10sg.indices.getD c10sg.frameIndex .nilSlice).len + 1 ∧
      (c10sgAfter.indices.getD c10sg.frameIndex .nilSlice).getElem0
        ((c10sg.indices.getD c10sg.frameIndex .nilSlice).len) = some ibuf ∧
      Event.mapWrite vbuf ∈ c10sev ∧ Event.mapWrite ibuf ∈ c10sev :=
  C10_draw_binds_most_recent_setVertices.2.1 c10sg noSetVerticesErr c10sgAfter
    c10sev (by decide) (by decide) (by decide) (by decide) (by decide)
